import Mathlib

/-!
# Verification of the waba-sandbox Quota, Compliance and Routing Engine

A shallow embedding, in Lean 4, of the in-memory evaluators and state
machines of the waba-sandbox repository (messaging-limit tracker,
marketing eligibility and frequency engine, phone lifecycle store,
webhook target resolver, event bus, template store), together with
theorems settling the specification claims about them.

Conventions of the embedding:
* timestamps and durations are `Int` milliseconds (JavaScript `Date.now()`
  values are non-negative integers; arithmetic such as `now - windowMs`
  is exact integer arithmetic in the source as long as values stay small,
  which they do here);
* the sandbox's per-conversation USD costs (0.05, 0.03, ...) are modelled
  in exact micro-USD integers, since no claim inspects their float
  representation;
* module-level `Map`s become total functions `String → Option _`
  (or `String → List _` for maps read with a `?? []` default), and the
  mutating operations pass the store explicitly and return the new store;
* JavaScript truthiness tests on optional strings (`if (s) ...`) are
  modelled by `strTruthy`, which is false exactly on `none` and `some ""`;
* identifiers produced from `Date.now()`/`Math.random()` become explicit
  parameters.
-/

namespace WabaSandbox

/-- JavaScript truthiness of a `string | undefined | null` value:
`undefined`/`null` and the empty string are falsy. -/
def strTruthy : Option String → Bool
  | none => false
  | some s => !(s == "")

/-! ## src/state/messagingLimits.ts -/

inductive MessagingLimitTier where
  | TIER_250
  | TIER_1K
  | TIER_10K
  | TIER_100K
  | TIER_UNLIMITED
deriving DecidableEq, Repr

inductive ConversationCategory where
  | MARKETING
  | UTILITY
  | AUTHENTICATION
  | UNKNOWN
deriving DecidableEq, Repr

structure SendEvent where
  /-- the source's `to` field (`to` is reserved in Lean) -/
  recipient : String
  category : ConversationCategory
  timestamp : Int
  costMicroUsd : Nat
deriving DecidableEq, Repr

structure MessagingLimitState where
  phoneId : String
  tier : MessagingLimitTier
  windowMs : Int
  sends : List SendEvent
  totalCostMicroUsd : Nat
deriving DecidableEq, Repr

def DEFAULT_WINDOW_MS : Int := 24 * 60 * 60 * 1000

/-- Per-conversation sandbox cost approximations, in micro-USD
(0.05, 0.03, 0.02, 0.025 USD in the source). -/
def CATEGORY_COST : ConversationCategory → Nat
  | .MARKETING => 50000
  | .UTILITY => 30000
  | .AUTHENTICATION => 20000
  | .UNKNOWN => 25000

/-- Tier limits; `none` models `Number.POSITIVE_INFINITY` for
`TIER_UNLIMITED` (a finite set size is never `>=` it). -/
def TIER_LIMITS : MessagingLimitTier → Option Nat
  | .TIER_250 => some 250
  | .TIER_1K => some 1000
  | .TIER_10K => some 10000
  | .TIER_100K => some 100000
  | .TIER_UNLIMITED => none

/-- The lazily created per-number state (`getOrCreateState`). -/
def freshMessagingState (phoneId : String) : MessagingLimitState :=
  { phoneId := phoneId
    tier := .TIER_1K
    windowMs := DEFAULT_WINDOW_MS
    sends := []
    totalCostMicroUsd := 0 }

structure MessagingLimitEvaluation where
  allowed : Bool
  reason : Option String
  tier : MessagingLimitTier
  windowUniqueRecipients : Nat
  limitUniqueRecipients : Option Nat
deriving DecidableEq, Repr

/-- Source: `state.sends.filter((e) => e.timestamp >= windowStart)`. -/
def pruneSends (sends : List SendEvent) (windowStart : Int) : List SendEvent :=
  sends.filter (fun e => windowStart ≤ e.timestamp)

/-- Source: `new Set(state.sends.map((e) => e.to))`, as the deduplicated list of
recipients; its length is the set's size. -/
def uniqueRecipientsOf (sends : List SendEvent) : List String :=
  (sends.map SendEvent.recipient).dedup

/-- Source: `uniqueRecipients.size >= limit`, with `limit` possibly `+∞`. -/
def sizeAtLimit (size : Nat) : Option Nat → Bool
  | none => false
  | some l => decide (l ≤ size)

/-- Source `evaluateMessagingLimit`: prunes the stored send sequence to the
window, then rejects exactly when the recipient is new and the distinct
recipient set is at the tier limit.  Returns the evaluation and the
(pruned) stored state. -/
def evaluateMessagingLimit (state : MessagingLimitState) (recipient : String)
    (now : Int) : MessagingLimitEvaluation × MessagingLimitState :=
  let windowStart := now - state.windowMs
  let pruned := pruneSends state.sends windowStart
  let state' := { state with sends := pruned }
  let uniq := uniqueRecipientsOf pruned
  let limit := TIER_LIMITS state'.tier
  if !(uniq.contains recipient) && sizeAtLimit uniq.length limit then
    ({ allowed := false
       reason := some "messaging_limit_reached_for_this_phone_number_in_current_24h_window"
       tier := state'.tier
       windowUniqueRecipients := uniq.length
       limitUniqueRecipients := limit }, state')
  else
    ({ allowed := true
       reason := none
       tier := state'.tier
       windowUniqueRecipients := uniq.length
       limitUniqueRecipients := limit }, state')

/-- Source `registerSend`: always appends the event and accrues its cost; it
performs no limit check and no pruning. -/
def registerSend (state : MessagingLimitState) (recipient : String)
    (category : ConversationCategory) (now : Int) :
    SendEvent × MessagingLimitState :=
  let cost := CATEGORY_COST category
  let event : SendEvent :=
    { recipient := recipient, category := category, timestamp := now, costMicroUsd := cost }
  (event,
    { state with
        sends := state.sends ++ [event]
        totalCostMicroUsd := state.totalCostMicroUsd + cost })

structure MessagingLimitSummary where
  phoneId : String
  tier : MessagingLimitTier
  windowMs : Int
  windowUniqueRecipients : Nat
  limitUniqueRecipients : Option Nat
  totalCostMicroUsd : Nat
deriving DecidableEq, Repr

/-- Source `getMessagingSummaryForPhone`: a pure read; it filters a copy of the
send sequence to the window but does not write the stored state back. -/
def getMessagingSummaryForPhone (state : MessagingLimitState) (now : Int) :
    MessagingLimitSummary :=
  let windowStart := now - state.windowMs
  let recent := pruneSends state.sends windowStart
  { phoneId := state.phoneId
    tier := state.tier
    windowMs := state.windowMs
    windowUniqueRecipients := (uniqueRecipientsOf recent).length
    limitUniqueRecipients := TIER_LIMITS state.tier
    totalCostMicroUsd := state.totalCostMicroUsd }

/-! ## src/state/marketing.ts -/

inductive MarketingOptInStatus where
  | opted_in
  | opted_out
  | unknown
deriving DecidableEq, Repr

structure MarketingContact where
  waId : String
  status : MarketingOptInStatus
  source : Option String := none
  note : Option String := none
  updatedAt : Int
deriving DecidableEq, Repr

structure MarketingEligibility where
  waId : String
  status : MarketingOptInStatus
  allowed : Bool
  reason : String
  contact : Option MarketingContact := none
deriving DecidableEq, Repr

structure MarketingSendRecord where
  id : String
  phoneId : String
  /-- the source's `to` field (`to` is reserved in Lean) -/
  recipient : String
  templateName : Option String := none
  languageCode : Option String := none
  category : ConversationCategory
  sendTimestamp : Int
  scheduledFor : Option Int := none
deriving DecidableEq, Repr

structure MarketingFrequencyEvaluation where
  allowed : Bool
  reason : Option String
  windowMs : Int
  sendsInWindow : Nat
  maxSends : Nat
deriving DecidableEq, Repr

structure MarketingConfigState where
  frequencyWindowMs : Int
  maxSendsPerWindow : Nat
  requireOptIn : Bool
deriving DecidableEq, Repr

/-- The module-level mutable state of `marketing.ts`: the contact
registry, the global send ledger (capped at 500), the conversion ledger,
the per-(phoneId, recipient) frequency buckets (a map read with a
`?? []` default) and the runtime marketing configuration. -/
structure MarketingStore where
  contacts : String → Option MarketingContact
  sends : List MarketingSendRecord
  frequencyBuckets : String → List MarketingSendRecord
  config : MarketingConfigState

def defaultMarketingConfig : MarketingConfigState :=
  { frequencyWindowMs := 24 * 60 * 60 * 1000
    maxSendsPerWindow := 1
    requireOptIn := true }

def emptyMarketingStore : MarketingStore :=
  { contacts := fun _ => none
    sends := []
    frequencyBuckets := fun _ => []
    config := defaultMarketingConfig }

/-- The frequency-bucket key: the phone id, two underscores, and the
recipient id. -/
def getFrequencyKey (phoneId recipient : String) : String :=
  phoneId ++ "__" ++ recipient

/-- Source `evaluateMarketingEligibility`: a pure read of the contact registry
and configuration. -/
def evaluateMarketingEligibility (store : MarketingStore) (waId : String) :
    MarketingEligibility :=
  match store.contacts waId with
  | none =>
    { waId := waId
      status := .unknown
      allowed := !store.config.requireOptIn
      reason :=
        if store.config.requireOptIn then "marketing_opt_in_required"
        else "no_marketing_opt_status__treated_as_allowed" }
  | some contact =>
    if contact.status = .opted_out then
      { waId := waId
        status := contact.status
        allowed := false
        reason := "contact_opted_out_of_marketing_messages"
        contact := some contact }
    else if contact.status = .opted_in then
      { waId := waId
        status := contact.status
        allowed := true
        reason := "contact_opted_in_for_marketing_messages"
        contact := some contact }
    else
      { waId := waId
        status := contact.status
        allowed := !store.config.requireOptIn
        reason :=
          if store.config.requireOptIn then "marketing_opt_in_required"
          else "contact_marketing_status_unknown__treated_as_allowed"
        contact := some contact }

/-- Source `s.scheduledFor ?? s.sendTimestamp`: the effective time of a
marketing send record. -/
def effectiveAt (r : MarketingSendRecord) : Int :=
  r.scheduledFor.getD r.sendTimestamp

/-- Source `evaluateMarketingFrequency`: a pure read; counts the bucket records
whose effective time is `>= now - window` (the source has no upper
bound) and allows while that count is below `maxSendsPerWindow`. -/
def evaluateMarketingFrequency (store : MarketingStore)
    (phoneId recipient : String) (now : Int) : MarketingFrequencyEvaluation :=
  let key := getFrequencyKey phoneId recipient
  let windowStart := now - store.config.frequencyWindowMs
  let history := store.frequencyBuckets key
  let recent := history.filter (fun s => windowStart ≤ effectiveAt s)
  let allowed := decide (recent.length < store.config.maxSendsPerWindow)
  { allowed := allowed
    reason :=
      if allowed then some "within_frequency_cap"
      else some "marketing_frequency_cap_hit"
    windowMs := store.config.frequencyWindowMs
    sendsInWindow := recent.length
    maxSends := store.config.maxSendsPerWindow }

/-- Source `registerMarketingSend`: unconditionally records the send into the
capped global ledger and into the frequency bucket, pruning the bucket
by the window measured from the effective send time.  `now` models
`Date.now()` and `rid` the generated `mkt_...` identifier. -/
def registerMarketingSend (store : MarketingStore)
    (phoneId recipient : String)
    (templateName languageCode : Option String)
    (category : Option ConversationCategory)
    (sendAt : Option Int) (now : Int) (rid : String) :
    MarketingSendRecord × MarketingStore :=
  let effectiveSend := sendAt.getD now
  let record : MarketingSendRecord :=
    { id := rid
      phoneId := phoneId
      recipient := recipient
      templateName := templateName
      languageCode := languageCode
      category := category.getD .MARKETING
      sendTimestamp := now
      scheduledFor := sendAt }
  let sends' := store.sends ++ [record]
  let sends'' :=
    if 500 < sends'.length then sends'.drop (sends'.length - 500) else sends'
  let key := getFrequencyKey phoneId recipient
  let existing := store.frequencyBuckets key
  let pushed := existing ++ [record]
  let cutoff := effectiveSend - store.config.frequencyWindowMs
  let pruned := pushed.filter (fun r => cutoff ≤ effectiveAt r)
  (record,
    { store with
        sends := sends''
        frequencyBuckets := fun k =>
          if k = key then pruned else store.frequencyBuckets k })

/-! ## src/config.ts (the fields the routing core reads) -/

structure RuntimeConfig where
  verifyToken : String
  /-- Typed `string | null` in the source. -/
  targetWebhookUrl : Option String
  /-- Typed `string | null | undefined` in the source. -/
  webhookAppSecret : Option String
deriving DecidableEq, Repr

/-! ## src/state/webhookRouting.ts -/

structure WabaOverrideConfig where
  wabaId : String
  overrideCallbackUri : Option String := none
  verifyToken : Option String := none
deriving DecidableEq, Repr

structure PhoneWebhookConfiguration where
  overrideCallbackUri : Option String := none
  verifyToken : Option String := none
deriving DecidableEq, Repr

structure ConversationalCommand where
  command_name : String
  command_description : String
deriving DecidableEq, Repr

structure ConversationalAutomationConfig where
  enable_welcome_message : Option Bool := none
  commands : List ConversationalCommand := []
  prompts : List String := []
deriving DecidableEq, Repr

inductive PhoneQualityRating where
  | GREEN
  | YELLOW
  | RED
  | UNKNOWN
  | NA
deriving DecidableEq, Repr

inductive PhoneVerificationStatus where
  | UNVERIFIED
  | PENDING
  | VERIFIED
deriving DecidableEq, Repr

inductive PhoneAccountMode where
  | SANDBOX
  | LIVE
deriving DecidableEq, Repr

inductive VerificationMethod where
  | SMS
  | VOICE
deriving DecidableEq, Repr

structure PendingPhoneVerificationCode where
  code : String
  method : VerificationMethod
  language : String
  requestedAt : Int
deriving DecidableEq, Repr

structure PhoneNumberConfig where
  id : String
  displayPhoneNumber : String
  wabaId : Option String := none
  webhookConfiguration : Option PhoneWebhookConfiguration := none
  verifiedName : Option String := none
  qualityRating : Option PhoneQualityRating := none
  verificationStatus : PhoneVerificationStatus := .UNVERIFIED
  pendingVerificationCode : Option PendingPhoneVerificationCode := none
  twoStepVerificationPin : Option String := none
  accountMode : Option PhoneAccountMode := none
  lastOnboardedTime : Option Int := none
  identityKeyCheckEnabled : Option Bool := none
  registered : Option Bool := none
  dataLocalizationRegion : Option String := none
  registerRequests : List Int := []
  deregisterRequests : List Int := []
  conversationalAutomation : Option ConversationalAutomationConfig := none
deriving DecidableEq, Repr

/-- The module-level `phoneNumbers` map. -/
def PhoneStore : Type := String → Option PhoneNumberConfig

/-- The module-level `wabas` map. -/
def WabaStore : Type := String → Option WabaOverrideConfig

/-- Source: `phoneNumbers.set(id, phone)`. -/
def setPhone (store : PhoneStore) (id : String) (phone : PhoneNumberConfig) :
    PhoneStore :=
  fun k => if k = id then some phone else store k

def REQUEST_WINDOW_MS : Int := 72 * 60 * 60 * 1000

def REQUEST_LIMIT : Nat := 10

/-- Source: `timestamps.filter((ts) => ts >= now - REQUEST_WINDOW_MS)`. -/
def pruneWindow (timestamps : List Int) (now : Int) : List Int :=
  timestamps.filter (fun ts => now - REQUEST_WINDOW_MS ≤ ts)

/-- Source `Math.min(...attempts)` (junk value 0 on the empty list, which the
source never reaches: it is only taken when at least `REQUEST_LIMIT`
attempts are in the window). -/
def oldestOf : List Int → Int
  | [] => 0
  | x :: xs => xs.foldl min x

/-- Source `verifyPhoneNumberCode`: `true` exactly when the phone exists, has a
pending code and the supplied code matches; on success marks the phone
`VERIFIED` and deletes the pending code; otherwise leaves the store
untouched. -/
def verifyPhoneNumberCode (store : PhoneStore) (id code : String) :
    Bool × PhoneStore :=
  match store id with
  | none => (false, store)
  | some phone =>
    match phone.pendingVerificationCode with
    | none => (false, store)
    | some pending =>
      if pending.code = code then
        (true,
          setPhone store id
            { phone with
                verificationStatus := .VERIFIED
                pendingVerificationCode := none })
      else (false, store)

inductive PhoneOpError where
  | not_found
  | rate_limited
deriving DecidableEq, Repr

structure PhoneOpFailure where
  error : PhoneOpError
  retryAfterMs : Option Int := none
  attemptsInWindow : Option Nat := none
deriving DecidableEq, Repr

/-- Source `registerPhoneNumber`: not-found for a missing phone (nothing is
created); otherwise prunes the register-attempt window and either
rejects with `rate_limited` (storing the pruned attempts and computing
the retry-after from the oldest in-window attempt) or appends the
attempt, stores the PIN, sets `registered` and records the uppercased
region (clearing it when the argument is not a truthy string). -/
def registerPhoneNumber (store : PhoneStore) (id pin : String)
    (dataLocalizationRegion : Option String) (now : Int) :
    (PhoneNumberConfig ⊕ PhoneOpFailure) × PhoneStore :=
  match store id with
  | none => (Sum.inr { error := .not_found }, store)
  | some phone =>
    let attempts := pruneWindow phone.registerRequests now
    if REQUEST_LIMIT ≤ attempts.length then
      let oldest := oldestOf attempts
      let phone' := { phone with registerRequests := attempts }
      (Sum.inr
        { error := .rate_limited
          retryAfterMs := some (max 0 (oldest + REQUEST_WINDOW_MS - now))
          attemptsInWindow := some attempts.length },
        setPhone store id phone')
    else
      let phone' :=
        { phone with
            registerRequests := attempts ++ [now]
            twoStepVerificationPin := some pin
            registered := some true
            dataLocalizationRegion :=
              if strTruthy dataLocalizationRegion then
                some ((dataLocalizationRegion.getD "").toUpper)
              else none }
      (Sum.inl phone', setPhone store id phone')

/-- Source `deregisterPhoneNumber`: the same throttle over the separate
deregister-attempt window; success clears `registered` and the region. -/
def deregisterPhoneNumber (store : PhoneStore) (id : String) (now : Int) :
    (PhoneNumberConfig ⊕ PhoneOpFailure) × PhoneStore :=
  match store id with
  | none => (Sum.inr { error := .not_found }, store)
  | some phone =>
    let attempts := pruneWindow phone.deregisterRequests now
    if REQUEST_LIMIT ≤ attempts.length then
      let oldest := oldestOf attempts
      let phone' := { phone with deregisterRequests := attempts }
      (Sum.inr
        { error := .rate_limited
          retryAfterMs := some (max 0 (oldest + REQUEST_WINDOW_MS - now))
          attemptsInWindow := some attempts.length },
        setPhone store id phone')
    else
      let phone' :=
        { phone with
            deregisterRequests := attempts ++ [now]
            registered := some false
            dataLocalizationRegion := none }
      (Sum.inl phone', setPhone store id phone')

inductive WebhookSource where
  | phone
  | waba
  | app
deriving DecidableEq, Repr

structure ResolvedWebhookTarget where
  url : String
  source : WebhookSource
  phoneId : Option String := none
  wabaId : Option String := none
  appSecret : Option String := none
deriving DecidableEq, Repr

/-- An early `return` in a cascade: the first `some` wins. -/
def fallbackO {α : Type} (a b : Option α) : Option α :=
  match a with
  | some r => some r
  | none => b

/-- The `opts.phoneNumberId` branch of `resolveWebhookTarget`: the
phone's own truthy override wins, else the override of the phone's
WABA; `none` (fall through) when the phone id is not truthy, the phone
does not exist, or neither override applies. -/
def resolvePhoneBranch (phones : PhoneStore) (wabas : WabaStore)
    (phoneNumberId : Option String) : Option ResolvedWebhookTarget :=
  if strTruthy phoneNumberId then
    match phones (phoneNumberId.getD "") with
    | none => none
    | some phone =>
      let ov := phone.webhookConfiguration.bind
        PhoneWebhookConfiguration.overrideCallbackUri
      if strTruthy ov then
        some
          { url := ov.getD ""
            source := .phone
            phoneId := some phone.id
            wabaId := if strTruthy phone.wabaId then phone.wabaId else none }
      else if strTruthy phone.wabaId then
        match wabas (phone.wabaId.getD "") with
        | none => none
        | some waba =>
          if strTruthy waba.overrideCallbackUri then
            some
              { url := waba.overrideCallbackUri.getD ""
                source := .waba
                phoneId := some phone.id
                wabaId :=
                  if strTruthy phone.wabaId then phone.wabaId else none }
          else none
      else none
  else none

/-- The `opts.wabaId` branch of `resolveWebhookTarget`. -/
def resolveWabaBranch (wabas : WabaStore) (wabaId : Option String) :
    Option ResolvedWebhookTarget :=
  if strTruthy wabaId then
    match wabas (wabaId.getD "") with
    | none => none
    | some waba =>
      if strTruthy waba.overrideCallbackUri then
        some
          { url := waba.overrideCallbackUri.getD ""
            source := .waba
            wabaId := some waba.wabaId }
      else none
  else none

/-- The `config.targetWebhookUrl` branch of `resolveWebhookTarget`:
only this tier carries the configured app secret. -/
def resolveAppBranch (config : RuntimeConfig) :
    Option ResolvedWebhookTarget :=
  if strTruthy config.targetWebhookUrl then
    some
      { url := config.targetWebhookUrl.getD ""
        source := .app
        appSecret :=
          if strTruthy config.webhookAppSecret then config.webhookAppSecret
          else none }
  else none

/-- Source `resolveWebhookTarget`: the early-return cascade — the
phone branch, then the `opts.wabaId` branch, then the global default,
else `null`. -/
def resolveWebhookTarget (phones : PhoneStore) (wabas : WabaStore)
    (config : RuntimeConfig) (phoneNumberId wabaId : Option String) :
    Option ResolvedWebhookTarget :=
  fallbackO (resolvePhoneBranch phones wabas phoneNumberId)
    (fallbackO (resolveWabaBranch wabas wabaId) (resolveAppBranch config))

/-! ## src/state/eventStore.ts (the Event Bus) -/

inductive EventDirection where
  | inbound
  | outbound
  | system
deriving DecidableEq, Repr

inductive EventType where
  | webhookIncoming
  | simulateMessage
  | simulateStatus
  | configUpdate
deriving DecidableEq, Repr

structure SandboxEvent where
  id : String
  timestamp : Int
  direction : EventDirection
  type : EventType
  source : String
  /-- Typed `payload: unknown` in the source; modelled as its serialized text, which no
  operation of the bus inspects. -/
  payload : String
  meta : Option String := none
deriving DecidableEq, Repr

/-- Source: `Omit<SandboxEvent, "id" | "timestamp">`. -/
structure SandboxEventInput where
  direction : EventDirection
  type : EventType
  source : String
  payload : String
  meta : Option String := none
deriving DecidableEq, Repr

def maxEvents : Nat := 200

/-- A subscriber callback, which may throw (`Except.error`). -/
def Subscriber : Type := SandboxEvent → Except String Unit

/-- The id/timestamp enrichment performed by `addEvent` (`eid` models
the generated `evt_...` identifier, `now` models `Date.now()`). -/
def enrichEvent (input : SandboxEventInput) (eid : String) (now : Int) :
    SandboxEvent :=
  { id := eid
    timestamp := now
    direction := input.direction
    type := input.type
    source := input.source
    payload := input.payload
    meta := input.meta }

/-- Source `events.push(...); if (events.length > maxEvents) splice`: the
log append followed by the oldest-first trim to `maxEvents`. -/
def trimAppend (log : List SandboxEvent) (event : SandboxEvent) :
    List SandboxEvent :=
  let log' := log ++ [event]
  if maxEvents < log'.length then log'.drop (log'.length - maxEvents) else log'

/-- Source `addEvent`: enriches the record, appends and trims the log, then
notifies every current subscriber inside a `try/catch` that swallows
subscriber errors.  Returns the enriched event, the new log, and each
subscriber's individual outcome (every subscriber is invoked on the
event regardless of the outcomes of the others). -/
def addEvent (log : List SandboxEvent) (subscribers : List Subscriber)
    (input : SandboxEventInput) (eid : String) (now : Int) :
    SandboxEvent × List SandboxEvent × List (Except String Unit) :=
  let enriched := enrichEvent input eid now
  (enriched, trimAppend log enriched, subscribers.map (fun s => s enriched))

/-- Sequentially publishing a batch of inputs, threading the log
(the subscriber set does not affect the log). -/
def publishAll (log : List SandboxEvent)
    (inputs : List (SandboxEventInput × String × Int)) : List SandboxEvent :=
  inputs.foldl
    (fun l step => trimAppend l (enrichEvent step.1 step.2.1 step.2.2)) log

/-- The enrichment of a whole batch, in publication order. -/
def enrichAll (inputs : List (SandboxEventInput × String × Int)) :
    List SandboxEvent :=
  inputs.map (fun step => enrichEvent step.1 step.2.1 step.2.2)

/-! ## src/state/templates.ts -/

inductive TemplateStatus where
  | APPROVED
  | PENDING
  | REJECTED
  | IN_APPEAL
  | DISABLED
  | PAUSED
deriving DecidableEq, Repr

inductive TemplateRejectionReason where
  | POLICY
  | SPAM
  | TRADEMARK
  | INCORRECT_FORMAT
  | PROHIBITED_CONTENT
  | OTHER
deriving DecidableEq, Repr

inductive TemplateButtonType where
  | QUICK_REPLY
  | URL
  | PHONE_NUMBER
  | COPY_CODE
deriving DecidableEq, Repr

structure TemplateButton where
  type : TemplateButtonType
  text : String
  url : Option String := none
  phone_number : Option String := none
  /-- the source's `example` field (`example` is reserved in Lean) -/
  exampleTexts : List String := []
deriving DecidableEq, Repr

inductive TemplateComponentType where
  | HEADER
  | BODY
  | FOOTER
  | BUTTONS
deriving DecidableEq, Repr

structure TemplateComponent where
  type : TemplateComponentType
  format : Option String := none
  text : Option String := none
  buttons : List TemplateButton := []
deriving DecidableEq, Repr

structure TemplateStatusAudit where
  status : TemplateStatus
  reason : Option TemplateRejectionReason := none
  note : Option String := none
  updatedAt : Int
deriving DecidableEq, Repr

structure MessageTemplate where
  id : String
  name : String
  languageCode : String
  category : ConversationCategory
  bodyText : Option String := none
  headerText : Option String := none
  footerText : Option String := none
  components : List TemplateComponent := []
  wabaId : Option String := none
  status : TemplateStatus
  statusHistory : List TemplateStatusAudit := []
  rejectionReason : Option TemplateRejectionReason := none
  rejectionNote : Option String := none
  createdAt : Int
  updatedAt : Int
deriving DecidableEq, Repr

/-- Source `buildComponentsFromText`: emits a HEADER/BODY/FOOTER component for
each truthy (present and non-empty) flat text field. -/
def buildComponentsFromText
    (bodyText headerText footerText : Option String) :
    List TemplateComponent :=
  (if strTruthy headerText then
      [{ type := .HEADER, format := some "TEXT", text := headerText }]
    else []) ++
  (if strTruthy bodyText then
      [{ type := .BODY, text := bodyText }]
    else []) ++
  (if strTruthy footerText then
      [{ type := .FOOTER, text := footerText }]
    else [])

structure DerivedTemplateText where
  headerText : Option String := none
  bodyText : Option String := none
  footerText : Option String := none
deriving DecidableEq, Repr

/-- One step of `deriveTextFromComponents`'s loop: take the component's
text for the first HEADER/BODY/FOOTER whose text is truthy and whose
slot is not yet filled. -/
def deriveStep (acc : DerivedTemplateText) (c : TemplateComponent) :
    DerivedTemplateText :=
  if c.type = .HEADER ∧ strTruthy c.text ∧ ¬ strTruthy acc.headerText then
    { acc with headerText := c.text }
  else if c.type = .BODY ∧ strTruthy c.text ∧ ¬ strTruthy acc.bodyText then
    { acc with bodyText := c.text }
  else if c.type = .FOOTER ∧ strTruthy c.text ∧ ¬ strTruthy acc.footerText then
    { acc with footerText := c.text }
  else acc

/-- Source `deriveTextFromComponents`. -/
def deriveTextFromComponents (components : List TemplateComponent) :
    DerivedTemplateText :=
  components.foldl deriveStep {}

structure CreateTemplateInput where
  name : String
  languageCode : String
  category : Option ConversationCategory := none
  bodyText : Option String := none
  headerText : Option String := none
  footerText : Option String := none
  components : Option (List TemplateComponent) := none
  wabaId : Option String := none
  status : Option TemplateStatus := none
  rejectionReason : Option TemplateRejectionReason := none
  rejectionNote : Option String := none
deriving DecidableEq, Repr

/-- Source `normalizeTemplateStatus` on an already-typed optional status. -/
def normalizeTemplateStatus (status : Option TemplateStatus) :
    TemplateStatus :=
  status.getD .PENDING

/-- Source `createTemplate` (`tid` models the generated `tpl_...` id, `now`
models `Date.now()`): synthesizes components from the flat text fields
when none are given, derives the flat texts from the components, and
throws `body_text_required` when the body text is not truthy. -/
def createTemplate (input : CreateTemplateInput) (tid : String) (now : Int) :
    Except String MessageTemplate :=
  let status := normalizeTemplateStatus input.status
  let derivedComponents :=
    input.components.getD
      (buildComponentsFromText input.bodyText input.headerText input.footerText)
  let derivedText := deriveTextFromComponents derivedComponents
  let bodyText := input.bodyText <|> derivedText.bodyText
  if ¬ strTruthy bodyText then Except.error "body_text_required"
  else
    let rejectionReason :=
      if status = .REJECTED then some (input.rejectionReason.getD .POLICY)
      else input.rejectionReason
    let statusAudit : TemplateStatusAudit :=
      { status := status
        reason := rejectionReason
        note := input.rejectionNote
        updatedAt := now }
    Except.ok
      { id := tid
        name := input.name
        languageCode := input.languageCode
        category := input.category.getD .UNKNOWN
        bodyText := bodyText
        headerText := input.headerText <|> derivedText.headerText
        footerText := input.footerText <|> derivedText.footerText
        components := derivedComponents
        wabaId := input.wabaId
        status := status
        statusHistory := [statusAudit]
        rejectionReason := rejectionReason
        rejectionNote := input.rejectionNote
        createdAt := now
        updatedAt := now }

/-! ## Derived notions used by the claims -/

/-- The distinct-recipient set of the number's in-window sends. -/
def recipientsInWindow (state : MessagingLimitState) (now : Int) :
    Finset String :=
  ((pruneSends state.sends (now - state.windowMs)).map
    SendEvent.recipient).toFinset

/-- The number of distinct recipients among the in-window sends. -/
def distinctRecipientsInWindow (state : MessagingLimitState) (now : Int) :
    Nat :=
  (recipientsInWindow state now).card

/-- One caller step of the evaluate-then-register discipline on the
messaging-limit tracker: evaluate, and register (the same recipient, at
the same instant) only when the caller wants to send and the evaluation
allowed it. -/
structure GuardedSendStep where
  recipient : String
  category : ConversationCategory
  wantsSend : Bool
  now : Int

def guardedSendStep (state : MessagingLimitState) (st : GuardedSendStep) :
    MessagingLimitState :=
  let r := evaluateMessagingLimit state st.recipient st.now
  if st.wantsSend && r.1.allowed then
    (registerSend r.2 st.recipient st.category st.now).2
  else r.2

def runGuardedSends (state : MessagingLimitState)
    (steps : List GuardedSendStep) : MessagingLimitState :=
  steps.foldl guardedSendStep state

/-- The number of bucket records for a (number, recipient) pair whose
effective time is within the window ending at `now` (lower bound only,
as the evaluator counts). -/
def marketingSendsInWindow (store : MarketingStore)
    (phoneId recipient : String) (now : Int) : Nat :=
  ((store.frequencyBuckets (getFrequencyKey phoneId recipient)).filter
    (fun s => now - store.config.frequencyWindowMs ≤ effectiveAt s)).length

/-- One caller step of the evaluate-then-register discipline on the
marketing frequency engine for a fixed (number, recipient) pair. -/
structure GuardedMarketingStep where
  sendAt : Option Int
  now : Int
  rid : String

def guardedMarketingStep (phoneId recipient : String)
    (store : MarketingStore) (st : GuardedMarketingStep) : MarketingStore :=
  if (evaluateMarketingFrequency store phoneId recipient st.now).allowed then
    (registerMarketingSend store phoneId recipient none none none
      st.sendAt st.now st.rid).2
  else store

def runGuardedMarketing (store : MarketingStore)
    (phoneId recipient : String) (steps : List GuardedMarketingStep) :
    MarketingStore :=
  steps.foldl (guardedMarketingStep phoneId recipient) store

/-- A sequence of `registerPhoneNumber` calls for one number. -/
def runRegisterTimes (store : PhoneStore) (id pin : String)
    (region : Option String) (times : List Int) : PhoneStore :=
  times.foldl (fun st t => (registerPhoneNumber st id pin region t).2) store

/-- The phone the spec's resolver precedence refers to: looked up only
when a phone id was actually given. -/
def specResolvedPhone (phones : PhoneStore) (phoneNumberId : Option String) :
    Option PhoneNumberConfig :=
  if strTruthy phoneNumberId then phones (phoneNumberId.getD "") else none

/-- Spec tier (1): the referenced phone's own override callback, if set. -/
def specTier1 (phones : PhoneStore) (phoneNumberId : Option String) :
    Option (String × WebhookSource × Option String) :=
  match specResolvedPhone phones phoneNumberId with
  | some phone =>
    let ov := phone.webhookConfiguration.bind
      PhoneWebhookConfiguration.overrideCallbackUri
    if strTruthy ov then some (ov.getD "", .phone, none) else none
  | none => none

/-- Spec tier (2): the override callback of the referenced phone's
WABA, if the phone has one. -/
def specTier2 (phones : PhoneStore) (wabas : WabaStore)
    (phoneNumberId : Option String) :
    Option (String × WebhookSource × Option String) :=
  match specResolvedPhone phones phoneNumberId with
  | some phone =>
    if strTruthy phone.wabaId then
      match wabas (phone.wabaId.getD "") with
      | some waba =>
        if strTruthy waba.overrideCallbackUri then
          some (waba.overrideCallbackUri.getD "", .waba, none)
        else none
      | none => none
    else none
  | none => none

/-- Spec tier (3), as the claim words it: the override callback of the
WABA named in the request, but ONLY when no phone id was given. -/
def specTier3Original (wabas : WabaStore)
    (phoneNumberId wabaId : Option String) :
    Option (String × WebhookSource × Option String) :=
  if !(strTruthy phoneNumberId) && strTruthy wabaId then
    match wabas (wabaId.getD "") with
    | some waba =>
      if strTruthy waba.overrideCallbackUri then
        some (waba.overrideCallbackUri.getD "", .waba, none)
      else none
    | none => none
  else none

/-- Spec tier (3), as amended: the override callback of the WABA named
in the request, whenever a WABA id was given. -/
def specTier3Amended (wabas : WabaStore) (wabaId : Option String) :
    Option (String × WebhookSource × Option String) :=
  if strTruthy wabaId then
    match wabas (wabaId.getD "") with
    | some waba =>
      if strTruthy waba.overrideCallbackUri then
        some (waba.overrideCallbackUri.getD "", .waba, none)
      else none
    | none => none
  else none

/-- Spec tier (4): the global default target URL, the only tier whose
answer carries the configured app secret. -/
def specTier4 (config : RuntimeConfig) :
    Option (String × WebhookSource × Option String) :=
  if strTruthy config.targetWebhookUrl then
    some (config.targetWebhookUrl.getD "", .app,
      if strTruthy config.webhookAppSecret then config.webhookAppSecret
      else none)
  else none

/-- The four-tier precedence exactly as the claim words it: first match
wins, tier (3) restricted to requests with no phone id; `none` when no
tier applies. -/
def specWebhookPrecedenceOriginal (phones : PhoneStore) (wabas : WabaStore)
    (config : RuntimeConfig) (phoneNumberId wabaId : Option String) :
    Option (String × WebhookSource × Option String) :=
  fallbackO (specTier1 phones phoneNumberId)
    (fallbackO (specTier2 phones wabas phoneNumberId)
      (fallbackO (specTier3Original wabas phoneNumberId wabaId)
        (specTier4 config)))

/-- The four-tier precedence as amended: tier (3) fires whenever a WABA
id was given, whether or not a phone id was also given. -/
def specWebhookPrecedenceAmended (phones : PhoneStore) (wabas : WabaStore)
    (config : RuntimeConfig) (phoneNumberId wabaId : Option String) :
    Option (String × WebhookSource × Option String) :=
  fallbackO (specTier1 phones phoneNumberId)
    (fallbackO (specTier2 phones wabas phoneNumberId)
      (fallbackO (specTier3Amended wabas wabaId) (specTier4 config)))

/-- The (url, source, appSecret) view of a resolver answer. -/
def resolvedView (r : ResolvedWebhookTarget) :
    String × WebhookSource × Option String :=
  (r.url, r.source, r.appSecret)

/-! ## Supporting lemmas -/

theorem uniqueRecipientsOf_contains (sends : List SendEvent) (r : String) :
    (uniqueRecipientsOf sends).contains r = true ↔
      r ∈ (sends.map SendEvent.recipient).toFinset := by
  simp [uniqueRecipientsOf, List.contains_iff_exists_mem_beq, List.mem_dedup]

theorem uniqueRecipientsOf_length (sends : List SendEvent) :
    (uniqueRecipientsOf sends).length =
      ((sends.map SendEvent.recipient).toFinset).card := by
  simp [uniqueRecipientsOf, List.card_toFinset]

theorem evaluateMessagingLimit_allowed (state : MessagingLimitState)
    (recipient : String) (now : Int) :
    (evaluateMessagingLimit state recipient now).1.allowed =
      ((uniqueRecipientsOf (pruneSends state.sends
          (now - state.windowMs))).contains recipient ||
        !sizeAtLimit (uniqueRecipientsOf (pruneSends state.sends
          (now - state.windowMs))).length (TIER_LIMITS state.tier)) := by
  simp only [evaluateMessagingLimit]
  split <;> rename_i h <;> simp_all [Bool.and_eq_true, Bool.not_eq_true] <;> tauto

theorem evaluateMessagingLimit_state (state : MessagingLimitState)
    (recipient : String) (now : Int) :
    (evaluateMessagingLimit state recipient now).2 =
      { state with sends := pruneSends state.sends (now - state.windowMs) } := by
  simp only [evaluateMessagingLimit]
  split <;> rfl

/-! ## Claim C1 -/

/-- C1: for every number state, recipient and instant,
`evaluateMessagingLimit` (which prunes events older than the window)
allows the send exactly when the recipient is already in the
distinct-recipient set of in-window sends, or that set's size is
strictly below the tier's numeric limit (250 / 1,000 / 10,000 /
100,000 / ∞, the last never being reached).  In particular, a number at
`TIER_250` with 250 distinct in-window recipients rejects a 251st new
recipient and accepts any of the 250. -/
theorem c1_evaluate_messaging_limit_allowed_iff
    (state : MessagingLimitState) (recipient : String) (now : Int) :
    (evaluateMessagingLimit state recipient now).1.allowed = true ↔
      (recipient ∈ recipientsInWindow state now ∨
        match state.tier with
        | .TIER_250 => distinctRecipientsInWindow state now < 250
        | .TIER_1K => distinctRecipientsInWindow state now < 1000
        | .TIER_10K => distinctRecipientsInWindow state now < 10000
        | .TIER_100K => distinctRecipientsInWindow state now < 100000
        | .TIER_UNLIMITED => True) := by
  rw [evaluateMessagingLimit_allowed]
  rw [Bool.or_eq_true, uniqueRecipientsOf_contains, uniqueRecipientsOf_length]
  have hmem : (recipient ∈
      ((pruneSends state.sends (now - state.windowMs)).map
        SendEvent.recipient).toFinset) ↔
      recipient ∈ recipientsInWindow state now := by
    simp [recipientsInWindow]
  have hcard : ((pruneSends state.sends (now - state.windowMs)).map
      SendEvent.recipient).toFinset.card =
      distinctRecipientsInWindow state now := by
    simp [distinctRecipientsInWindow, recipientsInWindow]
  rw [hmem, hcard]
  cases h : state.tier <;>
    simp [TIER_LIMITS, sizeAtLimit, Nat.not_le, Nat.lt_iff_add_one_le]

/-! ## Claim C2 -/

theorem pruneSends_idem (sends : List SendEvent) (c : Int) :
    pruneSends (pruneSends sends c) c = pruneSends sends c := by
  apply List.filter_eq_self.mpr
  intro e he
  exact (List.mem_filter.mp he).2

theorem recipientsInWindow_mono (state : MessagingLimitState)
    {now now' : Int} (h : now ≤ now') :
    recipientsInWindow state now' ⊆ recipientsInWindow state now := by
  intro x hx
  simp only [recipientsInWindow, pruneSends, List.mem_toFinset, List.mem_map,
    List.mem_filter, decide_eq_true_eq] at hx ⊢
  obtain ⟨e, ⟨he, ht⟩, hrec⟩ := hx
  exact ⟨e, ⟨he, by omega⟩, hrec⟩

theorem distinctRecipientsInWindow_mono (state : MessagingLimitState)
    {now now' : Int} (h : now ≤ now') :
    distinctRecipientsInWindow state now' ≤
      distinctRecipientsInWindow state now :=
  Finset.card_le_card (recipientsInWindow_mono state h)

theorem guardedSendStep_tier (state : MessagingLimitState)
    (st : GuardedSendStep) :
    (guardedSendStep state st).tier = state.tier ∧
      (guardedSendStep state st).windowMs = state.windowMs := by
  simp only [guardedSendStep]
  split <;> simp [registerSend, evaluateMessagingLimit_state]

theorem recipientsInWindow_pruned (state : MessagingLimitState) (now : Int) :
    recipientsInWindow
      { state with sends := pruneSends state.sends (now - state.windowMs) }
      now = recipientsInWindow state now := by
  simp [recipientsInWindow, pruneSends_idem]

theorem registerSend_insert (state : MessagingLimitState)
    (recipient : String) (category : ConversationCategory) (now : Int)
    (hwin : 0 ≤ state.windowMs) :
    recipientsInWindow (registerSend state recipient category now).2 now =
      insert recipient (recipientsInWindow state now) := by
  simp only [registerSend, recipientsInWindow, pruneSends, List.filter_append,
    List.map_append, List.toFinset_append]
  have hle : now - state.windowMs ≤ now := by omega
  have hsingle : List.filter
      (fun e : SendEvent => decide (now - state.windowMs ≤ e.timestamp))
      [{ recipient := recipient, category := category, timestamp := now,
         costMicroUsd := CATEGORY_COST category }] =
      [{ recipient := recipient, category := category, timestamp := now,
         costMicroUsd := CATEGORY_COST category }] := by
    simp [List.filter_singleton, hle, hwin]
  rw [hsingle]
  simp only [List.map_cons, List.map_nil, List.toFinset_cons, List.toFinset_nil]
  rw [Finset.union_comm]
  simp [Finset.insert_eq, Finset.union_comm, Finset.union_assoc]

theorem guardedSendStep_bound {state : MessagingLimitState}
    {st : GuardedSendStep} (hwin : 0 ≤ state.windowMs) {l : Nat}
    (hl : TIER_LIMITS state.tier = some l)
    (hb : distinctRecipientsInWindow state st.now ≤ l) :
    distinctRecipientsInWindow (guardedSendStep state st) st.now ≤ l := by
  have hpruned := recipientsInWindow_pruned state st.now
  simp only [guardedSendStep]
  rw [evaluateMessagingLimit_state]
  split
  case isFalse =>
    rw [distinctRecipientsInWindow, hpruned]
    exact hb
  case isTrue hcond =>
    rw [Bool.and_eq_true] at hcond
    have hallowed := hcond.2
    rw [evaluateMessagingLimit_allowed, Bool.or_eq_true] at hallowed
    have hins := registerSend_insert
      { state with sends := pruneSends state.sends (st.now - state.windowMs) }
      st.recipient st.category st.now (by simpa using hwin)
    rw [distinctRecipientsInWindow, hins]
    have hset : recipientsInWindow
        { state with sends := pruneSends state.sends (st.now - state.windowMs) }
        st.now = recipientsInWindow state st.now := hpruned
    rw [hset]
    rcases hallowed with hmem | hsize
    · rw [uniqueRecipientsOf_contains] at hmem
      have : st.recipient ∈ recipientsInWindow state st.now := by
        simpa [recipientsInWindow] using hmem
      rw [Finset.insert_eq_self.mpr this]
      exact hb
    · rw [Bool.not_eq_true'] at hsize
      rw [hl] at hsize
      have hlt : (uniqueRecipientsOf
          (pruneSends state.sends (st.now - state.windowMs))).length < l := by
        simpa [sizeAtLimit, Nat.lt_iff_add_one_le, Nat.not_le] using hsize
      rw [uniqueRecipientsOf_length] at hlt
      have hcard : (recipientsInWindow state st.now).card < l := by
        simpa [recipientsInWindow] using hlt
      calc (insert st.recipient (recipientsInWindow state st.now)).card
          ≤ (recipientsInWindow state st.now).card + 1 :=
            Finset.card_insert_le _ _
        _ ≤ l := by omega

theorem runGuardedSends_bound (steps : List GuardedSendStep) :
    ∀ (state : MessagingLimitState) (now₀ nowF : Int) (l : Nat),
    0 ≤ state.windowMs → TIER_LIMITS state.tier = some l →
    distinctRecipientsInWindow state now₀ ≤ l →
    List.Chain (fun a b => a ≤ b) now₀
      (steps.map GuardedSendStep.now ++ [nowF]) →
    distinctRecipientsInWindow (runGuardedSends state steps) nowF ≤ l := by
  induction steps with
  | nil =>
    intro state now₀ nowF l hwin hl hb hchain
    simp only [List.map_nil, List.nil_append, List.chain_cons] at hchain
    exact le_trans (distinctRecipientsInWindow_mono state hchain.1) hb
  | cons st rest ih =>
    intro state now₀ nowF l hwin hl hb hchain
    simp only [List.map_cons, List.cons_append, List.chain_cons] at hchain
    have hb' : distinctRecipientsInWindow state st.now ≤ l :=
      le_trans (distinctRecipientsInWindow_mono state hchain.1) hb
    have hstep := guardedSendStep_bound hwin hl hb'
    have hpres := guardedSendStep_tier state st
    have : runGuardedSends state (st :: rest) =
        runGuardedSends (guardedSendStep state st) rest := rfl
    rw [this]
    exact ih (guardedSendStep state st) st.now nowF l
      (hpres.2 ▸ hwin) (hpres.1 ▸ hl) hstep hchain.2

/-- C2: `registerSend` performs no limit check — it appends the send
event unconditionally, whatever the state — yet for every number and
every sequence of caller steps that registers a send only when the
immediately preceding `evaluateMessagingLimit` for that recipient
returned `allowed = true` (taken at non-decreasing instants), the count
of distinct recipients among the number's in-window send events never
strictly exceeds the number's (finite) tier limit. -/
theorem c2_guarded_sends_respect_limit :
    (∀ (state : MessagingLimitState) (recipient : String)
        (category : ConversationCategory) (now : Int),
        (registerSend state recipient category now).2.sends =
          state.sends ++ [(registerSend state recipient category now).1]) ∧
    (∀ (steps : List GuardedSendStep) (state : MessagingLimitState)
        (now₀ nowF : Int) (l : Nat),
        state.sends = [] → 0 ≤ state.windowMs →
        TIER_LIMITS state.tier = some l →
        List.Chain (fun a b => a ≤ b) now₀
          (steps.map GuardedSendStep.now ++ [nowF]) →
        distinctRecipientsInWindow (runGuardedSends state steps) nowF ≤ l) := by
  constructor
  · intro state recipient category now
    rfl
  · intro steps state now₀ nowF l hsends hwin hl hchain
    apply runGuardedSends_bound steps state now₀ nowF l hwin hl _ hchain
    simp [distinctRecipientsInWindow, recipientsInWindow, hsends, pruneSends]

/-- Witness for C2 at a concrete run: a fresh `TIER_1K` state and two
guarded steps (the same recipient twice, then a new one) at increasing
instants stay within the 1,000-recipient limit. -/
theorem c2_guarded_sends_respect_limit_witness :
    (registerSend (freshMessagingState "phone1") "r1" .MARKETING 5).2.sends =
      (freshMessagingState "phone1").sends ++
        [(registerSend (freshMessagingState "phone1") "r1" .MARKETING 5).1] ∧
    distinctRecipientsInWindow
      (runGuardedSends (freshMessagingState "phone1")
        [{ recipient := "r1", category := .MARKETING, wantsSend := true,
           now := 0 },
         { recipient := "r2", category := .UTILITY, wantsSend := true,
           now := 7 }]) 9 ≤ 1000 := by
  constructor
  · exact c2_guarded_sends_respect_limit.1 (freshMessagingState "phone1")
      "r1" .MARKETING 5
  · exact c2_guarded_sends_respect_limit.2 _ (freshMessagingState "phone1")
      0 9 1000 rfl (by decide) rfl (by simp [List.chain_cons])

/-! ## Claim C3 -/

theorem mem_pruneWindow_bound {timestamps : List Int} {now ts : Int}
    (h : ts ∈ pruneWindow timestamps now) :
    now - REQUEST_WINDOW_MS ≤ ts := by
  have := (List.mem_filter.mp h).2
  simpa using this

theorem mem_pruneWindow_snoc_bound {timestamps : List Int} {now ts : Int}
    (h : ts ∈ pruneWindow timestamps now ++ [now]) :
    now - REQUEST_WINDOW_MS ≤ ts := by
  rcases List.mem_append.mp h with h | h
  · exact mem_pruneWindow_bound h
  · rw [List.mem_singleton] at h
    subst h
    simp only [REQUEST_WINDOW_MS]
    omega

/-- C3 counterexample: `registerSend` (a write to the rolling-window
send sequence) does not prune.  Registering to `"r1"` at time 0 and
then to `"r2"` at time 172,800,000 (two days later, window 24h) leaves
the timestamp-0 event in the stored sequence even though it is older
than `now - window`. -/
theorem c3_stored_window_counterexample :
    ({ recipient := "r1", category := .UNKNOWN, timestamp := 0,
       costMicroUsd := 25000 } : SendEvent) ∈
      (registerSend (registerSend (freshMessagingState "p") "r1"
        .UNKNOWN 0).2 "r2" .UNKNOWN 172800000).2.sends ∧
    (0 : Int) <
      172800000 -
        (registerSend (registerSend (freshMessagingState "p") "r1"
          .UNKNOWN 0).2 "r2" .UNKNOWN 172800000).2.windowMs := by
  constructor
  · decide
  · decide

/-- C3 as amended: pruning of the stored rolling-window structures
happens in `evaluateMessagingLimit` (the send sequence), in
`registerPhoneNumber`/`deregisterPhoneNumber` (the attempt sequence of
the operation performed), and in `registerMarketingSend` (the frequency
bucket, relative to the effective send time); the reads
`getMessagingSummaryForPhone` and `evaluateMarketingFrequency` leave
the stored structures unchanged (and `registerSend` appends without
pruning), but compute their results from in-window entries only. -/
theorem c3_pruning_per_operation :
    (∀ (state : MessagingLimitState) (recipient : String) (now : Int)
        (e : SendEvent),
        e ∈ (evaluateMessagingLimit state recipient now).2.sends →
        now - state.windowMs ≤ e.timestamp) ∧
    (∀ (store : PhoneStore) (id pin : String) (region : Option String)
        (now : Int) (p : PhoneNumberConfig) (ts : Int),
        (registerPhoneNumber store id pin region now).2 id = some p →
        ts ∈ p.registerRequests → now - REQUEST_WINDOW_MS ≤ ts) ∧
    (∀ (store : PhoneStore) (id : String) (now : Int)
        (p : PhoneNumberConfig) (ts : Int),
        (deregisterPhoneNumber store id now).2 id = some p →
        ts ∈ p.deregisterRequests → now - REQUEST_WINDOW_MS ≤ ts) ∧
    (∀ (store : MarketingStore) (phoneId recipient : String)
        (templateName languageCode : Option String)
        (category : Option ConversationCategory) (sendAt : Option Int)
        (now : Int) (rid : String) (r : MarketingSendRecord),
        r ∈ (registerMarketingSend store phoneId recipient templateName
              languageCode category sendAt now rid).2.frequencyBuckets
            (getFrequencyKey phoneId recipient) →
        sendAt.getD now - store.config.frequencyWindowMs ≤ effectiveAt r) ∧
    (∀ (state : MessagingLimitState) (now : Int),
        (getMessagingSummaryForPhone state now).windowUniqueRecipients =
          distinctRecipientsInWindow state now) ∧
    (∀ (store : MarketingStore) (phoneId recipient : String) (now : Int),
        (evaluateMarketingFrequency store phoneId recipient now).sendsInWindow =
          marketingSendsInWindow store phoneId recipient now) := by
  refine ⟨?_, ?_, ?_, ?_, ?_, ?_⟩
  · intro state recipient now e he
    rw [evaluateMessagingLimit_state] at he
    simpa [pruneSends, List.mem_filter] using (List.mem_filter.mp he).2
  · intro store id pin region now p ts hp hts
    unfold registerPhoneNumber at hp
    cases hstore : store id with
    | none =>
      rw [hstore] at hp
      simp only at hp
      rw [hp] at hstore
      simp at hstore
    | some phone =>
      rw [hstore] at hp
      simp only at hp
      split at hp
      · simp only [setPhone, eq_self_iff_true, if_true,
          Option.some.injEq] at hp
        subst hp
        exact mem_pruneWindow_bound hts
      · simp only [setPhone, eq_self_iff_true, if_true,
          Option.some.injEq] at hp
        subst hp
        exact mem_pruneWindow_snoc_bound hts
  · intro store id now p ts hp hts
    unfold deregisterPhoneNumber at hp
    cases hstore : store id with
    | none =>
      rw [hstore] at hp
      simp only at hp
      rw [hp] at hstore
      simp at hstore
    | some phone =>
      rw [hstore] at hp
      simp only at hp
      split at hp
      · simp only [setPhone, eq_self_iff_true, if_true,
          Option.some.injEq] at hp
        subst hp
        exact mem_pruneWindow_bound hts
      · simp only [setPhone, eq_self_iff_true, if_true,
          Option.some.injEq] at hp
        subst hp
        exact mem_pruneWindow_snoc_bound hts
  · intro store phoneId recipient templateName languageCode category sendAt
      now rid r hr
    simp only [registerMarketingSend, if_pos rfl] at hr
    have := (List.mem_filter.mp hr).2
    simpa [decide_eq_true_eq] using this
  · intro state now
    simp [getMessagingSummaryForPhone, distinctRecipientsInWindow,
      recipientsInWindow, uniqueRecipientsOf_length]
  · intro store phoneId recipient now
    rfl

/-- Witness for C3 (amended), applying each pruning conjunct at a
concrete input: an in-window event survives `evaluateMessagingLimit`;
a register attempt at time 3 is within the 72h window of a call at
time 5; a fresh deregister attempt is within its own window; and a
bucket record written by `registerMarketingSend` is within the window
of its effective send time. -/
theorem c3_pruning_per_operation_witness :
    ((7 : Int) -
        ({ phoneId := "p", tier := .TIER_1K, windowMs := 10,
           sends := [{ recipient := "a", category := .UNKNOWN,
                       timestamp := 5, costMicroUsd := 0 }],
           totalCostMicroUsd := 0 } : MessagingLimitState).windowMs ≤
      ({ recipient := "a", category := .UNKNOWN, timestamp := 5,
         costMicroUsd := 0 } : SendEvent).timestamp) ∧
    ((5 : Int) - REQUEST_WINDOW_MS ≤ 3) ∧
    ((5 : Int) - REQUEST_WINDOW_MS ≤ 5) ∧
    ((none : Option Int).getD 0 -
        emptyMarketingStore.config.frequencyWindowMs ≤
      effectiveAt
        { id := "id1", phoneId := "p", recipient := "r",
          category := .MARKETING, sendTimestamp := 0 }) := by
  refine ⟨?_, ?_, ?_, ?_⟩
  · exact c3_pruning_per_operation.1
      { phoneId := "p", tier := .TIER_1K, windowMs := 10,
        sends := [{ recipient := "a", category := .UNKNOWN, timestamp := 5,
                    costMicroUsd := 0 }],
        totalCostMicroUsd := 0 } "a" 7
      { recipient := "a", category := .UNKNOWN, timestamp := 5,
        costMicroUsd := 0 }
      (by decide)
  · exact c3_pruning_per_operation.2.1
      (fun k => if k = "p" then
        some { id := "p", displayPhoneNumber := "1",
               registerRequests := [3] } else none)
      "p" "123456" none 5
      { id := "p", displayPhoneNumber := "1",
        registerRequests := [3, 5], twoStepVerificationPin := some "123456",
        registered := some true } 3
      (by decide) (by decide)
  · exact c3_pruning_per_operation.2.2.1
      (fun k => if k = "p" then
        some { id := "p", displayPhoneNumber := "1" } else none)
      "p" 5
      { id := "p", displayPhoneNumber := "1",
        deregisterRequests := [5], registered := some false } 5
      (by decide) (by decide)
  · exact c3_pruning_per_operation.2.2.2.1 emptyMarketingStore "p" "r"
      none none none none 0 "id1"
      { id := "id1", phoneId := "p", recipient := "r",
        category := .MARKETING, sendTimestamp := 0 }
      (by decide)

/-! ## Claim C4 -/

theorem fallbackO_map {α β : Type} (f : α → β) (a b : Option α) :
    (fallbackO a b).map f = fallbackO (a.map f) (b.map f) := by
  cases a <;> rfl

theorem fallbackO_assoc {α : Type} (a b c : Option α) :
    fallbackO (fallbackO a b) c = fallbackO a (fallbackO b c) := by
  cases a <;> rfl

theorem resolvePhoneBranch_view (phones : PhoneStore) (wabas : WabaStore)
    (pid : Option String) :
    (resolvePhoneBranch phones wabas pid).map resolvedView =
      fallbackO (specTier1 phones pid) (specTier2 phones wabas pid) := by
  unfold resolvePhoneBranch specTier1 specTier2 specResolvedPhone
  cases hpt : strTruthy pid
  · simp [fallbackO]
  · simp only [if_true]
    cases hphone : phones (pid.getD "")
    · simp [fallbackO]
    · rename_i phone
      cases hov : strTruthy (phone.webhookConfiguration.bind
          PhoneWebhookConfiguration.overrideCallbackUri) <;>
        cases hwid : strTruthy phone.wabaId <;>
          cases hw : wabas (phone.wabaId.getD "") <;>
            simp_all [fallbackO, resolvedView, apply_ite]

theorem resolveWabaBranch_view (wabas : WabaStore) (wid : Option String) :
    (resolveWabaBranch wabas wid).map resolvedView =
      specTier3Amended wabas wid := by
  unfold resolveWabaBranch specTier3Amended
  cases hwt : strTruthy wid
  · simp
  · simp only [if_true]
    cases hw : wabas (wid.getD "")
    · simp
    · rename_i waba
      cases hov : strTruthy waba.overrideCallbackUri <;>
        simp_all [resolvedView]

theorem resolveAppBranch_view (config : RuntimeConfig) :
    (resolveAppBranch config).map resolvedView = specTier4 config := by
  unfold resolveAppBranch specTier4
  split <;> simp [resolvedView]

/-- C4 counterexample: with a phone `"p"` that exists but has neither an
override nor a WABA, a WABA `"w"` with override `"https://w"`, and
global default `"https://g"`, resolving with BOTH ids returns the WABA
override — but the claim's precedence, whose tier (3) fires only when
no phone id was given, predicts the global default. -/
theorem c4_webhook_precedence_counterexample :
    (resolveWebhookTarget
        (fun k => if k = "p" then
          some { id := "p", displayPhoneNumber := "1" } else none)
        (fun k => if k = "w" then
          some { wabaId := "w", overrideCallbackUri := some "https://w" }
          else none)
        { verifyToken := "v", targetWebhookUrl := some "https://g",
          webhookAppSecret := none }
        (some "p") (some "w")).map resolvedView =
      some ("https://w", .waba, none) ∧
    specWebhookPrecedenceOriginal
        (fun k => if k = "p" then
          some { id := "p", displayPhoneNumber := "1" } else none)
        (fun k => if k = "w" then
          some { wabaId := "w", overrideCallbackUri := some "https://w" }
          else none)
        { verifyToken := "v", targetWebhookUrl := some "https://g",
          webhookAppSecret := none }
        (some "p") (some "w") =
      some ("https://g", .app, none) := by
  constructor
  · rfl
  · rfl

/-- C4 as amended: `resolveWebhookTarget` implements the four-tier
precedence with tier (3) — the override of the WABA named in the
request — applying whenever a WABA id was given and tiers (1)–(2) did
not answer, even if a phone id was also given; the `source` field names
the answering tier and `appSecret` is populated only at the
global-default tier.  The claim's two scenario instances hold: with
phone override `"https://p"`, WABA override `"https://w"` and global
default `"https://g"`, resolving with only the WABA id yields
`"https://w"` and resolving with the phone id yields `"https://p"`. -/
theorem c4_webhook_precedence :
    (∀ (phones : PhoneStore) (wabas : WabaStore) (config : RuntimeConfig)
        (phoneNumberId wabaId : Option String),
        (resolveWebhookTarget phones wabas config phoneNumberId wabaId).map
            resolvedView =
          specWebhookPrecedenceAmended phones wabas config phoneNumberId
            wabaId) ∧
    (resolveWebhookTarget
        (fun k => if k = "p" then
          some { id := "p", wabaId := some "w", displayPhoneNumber := "1",
                 webhookConfiguration :=
                   some { overrideCallbackUri := some "https://p" } }
          else none)
        (fun k => if k = "w" then
          some { wabaId := "w", overrideCallbackUri := some "https://w" }
          else none)
        { verifyToken := "v", targetWebhookUrl := some "https://g",
          webhookAppSecret := none }
        none (some "w")).map resolvedView = some ("https://w", .waba, none) ∧
    (resolveWebhookTarget
        (fun k => if k = "p" then
          some { id := "p", wabaId := some "w", displayPhoneNumber := "1",
                 webhookConfiguration :=
                   some { overrideCallbackUri := some "https://p" } }
          else none)
        (fun k => if k = "w" then
          some { wabaId := "w", overrideCallbackUri := some "https://w" }
          else none)
        { verifyToken := "v", targetWebhookUrl := some "https://g",
          webhookAppSecret := none }
        (some "p") none).map resolvedView =
      some ("https://p", .phone, none) := by
  refine ⟨?_, rfl, rfl⟩
  intro phones wabas config phoneNumberId wabaId
  unfold resolveWebhookTarget specWebhookPrecedenceAmended
  rw [fallbackO_map, fallbackO_map, resolvePhoneBranch_view,
    resolveWabaBranch_view, resolveAppBranch_view, fallbackO_assoc]

/-! ## Claim C5 -/

theorem foldl_min_mem (x : Int) (xs : List Int) :
    xs.foldl min x ∈ x :: xs := by
  induction xs generalizing x with
  | nil => simp
  | cons y ys ih =>
    have h := ih (min x y)
    simp only [List.foldl_cons]
    rcases List.mem_cons.mp h with h | h
    · rw [h]
      rcases le_total x y with hxy | hxy
      · rw [min_eq_left hxy]
        simp
      · rw [min_eq_right hxy]
        simp
    · simp [h]

theorem oldestOf_mem {xs : List Int} (h : xs ≠ []) : oldestOf xs ∈ xs := by
  cases xs with
  | nil => exact absurd rfl h
  | cons x ys => exact foldl_min_mem x ys

theorem pruneWindow_eq_self {timestamps : List Int} {now : Int}
    (h : ∀ x ∈ timestamps, now - REQUEST_WINDOW_MS ≤ x) :
    pruneWindow timestamps now = timestamps := by
  apply List.filter_eq_self.mpr
  intro x hx
  simpa using h x hx

theorem runRegisterTimes_all_succeed (id pin : String)
    (region : Option String) (ts : List Int) :
    ∀ (store : PhoneStore) (phone : PhoneNumberConfig) (t11 : Int),
    store id = some phone →
    phone.registerRequests.length + ts.length ≤ REQUEST_LIMIT →
    (∀ x, x ∈ phone.registerRequests ++ ts →
      t11 - REQUEST_WINDOW_MS ≤ x ∧ x ≤ t11) →
    ∃ p, runRegisterTimes store id pin region ts id = some p ∧
      p.registerRequests = phone.registerRequests ++ ts := by
  induction ts with
  | nil =>
    intro store phone t11 hstore _ _
    exact ⟨phone, by simpa [runRegisterTimes] using hstore, by simp⟩
  | cons t rest ih =>
    intro store phone t11 hstore hlen hwin
    have ht : t11 - REQUEST_WINDOW_MS ≤ t ∧ t ≤ t11 :=
      hwin t (by simp)
    have hprune : pruneWindow phone.registerRequests t =
        phone.registerRequests := by
      apply pruneWindow_eq_self
      intro x hx
      have hb := hwin x (List.mem_append_left _ hx)
      omega
    have hlt : ¬ REQUEST_LIMIT ≤
        (pruneWindow phone.registerRequests t).length := by
      rw [hprune]
      simp only [List.length_cons] at hlen
      omega
    have hstep : runRegisterTimes store id pin region (t :: rest) =
        runRegisterTimes ((registerPhoneNumber store id pin region t).2)
          id pin region rest := rfl
    rw [hstep]
    have hreg : (registerPhoneNumber store id pin region t).2 =
        setPhone store id
          { phone with
              registerRequests := pruneWindow phone.registerRequests t ++ [t]
              twoStepVerificationPin := some pin
              registered := some true
              dataLocalizationRegion :=
                if strTruthy region then some ((region.getD "").toUpper)
                else none } := by
      unfold registerPhoneNumber
      rw [hstore]
      simp only [if_neg hlt]
    rw [hreg]
    have hstore' : setPhone store id
        { phone with
            registerRequests := pruneWindow phone.registerRequests t ++ [t]
            twoStepVerificationPin := some pin
            registered := some true
            dataLocalizationRegion :=
              if strTruthy region then some ((region.getD "").toUpper)
              else none } id = some
        { phone with
            registerRequests := pruneWindow phone.registerRequests t ++ [t]
            twoStepVerificationPin := some pin
            registered := some true
            dataLocalizationRegion :=
              if strTruthy region then some ((region.getD "").toUpper)
              else none } := by
      simp [setPhone]
    obtain ⟨p, hp, hreq⟩ := ih _ _ t11 hstore'
      (by
        show (pruneWindow phone.registerRequests t ++ [t]).length +
          rest.length ≤ REQUEST_LIMIT
        rw [hprune]
        simp only [List.length_cons] at hlen
        simp only [List.length_append, List.length_cons, List.length_nil]
        omega)
      (by
        intro x hx
        apply hwin x
        have hx' : x ∈ (pruneWindow phone.registerRequests t ++ [t]) ++
            rest := hx
        rw [hprune, List.append_assoc, List.singleton_append] at hx'
        exact hx')
    refine ⟨p, hp, ?_⟩
    rw [hreq]
    show pruneWindow phone.registerRequests t ++ [t] ++ rest =
      phone.registerRequests ++ t :: rest
    rw [hprune, List.append_assoc, List.singleton_append]

/-- C5: `registerPhoneNumber` and `deregisterPhoneNumber` return
`not_found` (leaving the store untouched, so nothing is created) for a
nonexistent number; whenever ten or more attempts are already inside
the 72h rolling window they return `rate_limited` with a retry-after
computed from the oldest in-window attempt, which is always ≥ 0 and is
≤ 72h whenever the recorded attempts lie in the past; and starting from
a phone with no recorded attempts, ten calls inside one 72h window all
succeed while the eleventh is rejected with
`retryAfterMs = oldest + 72h - now ∈ [0, 72h]`. -/
theorem c5_registration_throttle :
    (∀ (store : PhoneStore) (id pin : String) (region : Option String)
        (now : Int), store id = none →
        registerPhoneNumber store id pin region now =
          (Sum.inr { error := .not_found }, store)) ∧
    (∀ (store : PhoneStore) (id : String) (now : Int), store id = none →
        deregisterPhoneNumber store id now =
          (Sum.inr { error := .not_found }, store)) ∧
    (∀ (store : PhoneStore) (id pin : String) (region : Option String)
        (now : Int) (phone : PhoneNumberConfig),
        store id = some phone →
        REQUEST_LIMIT ≤ (pruneWindow phone.registerRequests now).length →
        (registerPhoneNumber store id pin region now).1 =
          Sum.inr
            { error := .rate_limited
              retryAfterMs := some (max 0
                (oldestOf (pruneWindow phone.registerRequests now) +
                  REQUEST_WINDOW_MS - now))
              attemptsInWindow :=
                some (pruneWindow phone.registerRequests now).length } ∧
        (0 : Int) ≤ max 0
            (oldestOf (pruneWindow phone.registerRequests now) +
              REQUEST_WINDOW_MS - now) ∧
        ((∀ x ∈ phone.registerRequests, x ≤ now) →
          max 0 (oldestOf (pruneWindow phone.registerRequests now) +
            REQUEST_WINDOW_MS - now) ≤ REQUEST_WINDOW_MS)) ∧
    (∀ (store : PhoneStore) (id : String) (now : Int)
        (phone : PhoneNumberConfig),
        store id = some phone →
        REQUEST_LIMIT ≤ (pruneWindow phone.deregisterRequests now).length →
        (deregisterPhoneNumber store id now).1 =
          Sum.inr
            { error := .rate_limited
              retryAfterMs := some (max 0
                (oldestOf (pruneWindow phone.deregisterRequests now) +
                  REQUEST_WINDOW_MS - now))
              attemptsInWindow :=
                some (pruneWindow phone.deregisterRequests now).length } ∧
        (0 : Int) ≤ max 0
            (oldestOf (pruneWindow phone.deregisterRequests now) +
              REQUEST_WINDOW_MS - now) ∧
        ((∀ x ∈ phone.deregisterRequests, x ≤ now) →
          max 0 (oldestOf (pruneWindow phone.deregisterRequests now) +
            REQUEST_WINDOW_MS - now) ≤ REQUEST_WINDOW_MS)) ∧
    (∀ (store : PhoneStore) (id pin : String) (region : Option String)
        (phone : PhoneNumberConfig) (ts : List Int) (t11 : Int),
        store id = some phone →
        phone.registerRequests = [] →
        ts.length = REQUEST_LIMIT →
        (∀ x ∈ ts, t11 - REQUEST_WINDOW_MS ≤ x ∧ x ≤ t11) →
        (runRegisterTimes store id pin region ts id).map
            PhoneNumberConfig.registerRequests = some ts ∧
        (registerPhoneNumber (runRegisterTimes store id pin region ts)
            id pin region t11).1 =
          Sum.inr
            { error := .rate_limited
              retryAfterMs := some (oldestOf ts + REQUEST_WINDOW_MS - t11)
              attemptsInWindow := some REQUEST_LIMIT } ∧
        (0 : Int) ≤ oldestOf ts + REQUEST_WINDOW_MS - t11 ∧
        oldestOf ts + REQUEST_WINDOW_MS - t11 ≤ REQUEST_WINDOW_MS) := by
  refine ⟨?_, ?_, ?_, ?_, ?_⟩
  · intro store id pin region now h
    unfold registerPhoneNumber
    rw [h]
  · intro store id now h
    unfold deregisterPhoneNumber
    rw [h]
  · intro store id pin region now phone hstore hlim
    have hne : pruneWindow phone.registerRequests now ≠ [] := by
      intro hnil
      rw [hnil] at hlim
      simp [REQUEST_LIMIT] at hlim
    refine ⟨?_, le_max_left _ _, ?_⟩
    · unfold registerPhoneNumber
      rw [hstore]
      simp only [if_pos hlim]
    · intro hx
      have hmem := oldestOf_mem hne
      have hle : oldestOf (pruneWindow phone.registerRequests now) ≤ now :=
        hx _ (List.mem_filter.mp hmem).1
      have hW : (0 : Int) ≤ REQUEST_WINDOW_MS := by
        simp only [REQUEST_WINDOW_MS]
        omega
      omega
  · intro store id now phone hstore hlim
    have hne : pruneWindow phone.deregisterRequests now ≠ [] := by
      intro hnil
      rw [hnil] at hlim
      simp [REQUEST_LIMIT] at hlim
    refine ⟨?_, le_max_left _ _, ?_⟩
    · unfold deregisterPhoneNumber
      rw [hstore]
      simp only [if_pos hlim]
    · intro hx
      have hmem := oldestOf_mem hne
      have hle : oldestOf (pruneWindow phone.deregisterRequests now) ≤ now :=
        hx _ (List.mem_filter.mp hmem).1
      have hW : (0 : Int) ≤ REQUEST_WINDOW_MS := by
        simp only [REQUEST_WINDOW_MS]
        omega
      omega
  · intro store id pin region phone ts t11 hstore hempty hts hwin
    obtain ⟨p, hp, hreq⟩ := runRegisterTimes_all_succeed id pin region ts
      store phone t11 hstore
      (by rw [hempty, hts]; simp)
      (by
        intro x hx
        rw [hempty, List.nil_append] at hx
        exact hwin x hx)
    rw [hempty, List.nil_append] at hreq
    have htsne : ts ≠ [] := by
      intro hnil
      rw [hnil] at hts
      simp [REQUEST_LIMIT] at hts
    have holdmem := oldestOf_mem htsne
    have hold := hwin _ holdmem
    have hprune : pruneWindow ts t11 = ts :=
      pruneWindow_eq_self (fun x hx => (hwin x hx).1)
    refine ⟨by rw [hp]; simp [hreq], ?_, by omega, ?_⟩
    · have hlim : REQUEST_LIMIT ≤ ts.length := le_of_eq hts.symm
      have hmax : max 0 (oldestOf ts + REQUEST_WINDOW_MS - t11) =
          oldestOf ts + REQUEST_WINDOW_MS - t11 :=
        max_eq_right (by omega)
      unfold registerPhoneNumber
      rw [hp]
      simp only [hreq, hprune, if_pos hlim, hts, hmax]
      simp
    · have hle := hold.2
      have hW : (0 : Int) ≤ REQUEST_WINDOW_MS := by
        simp only [REQUEST_WINDOW_MS]
        omega
      omega

/-- Witness for C5 at concrete inputs: not-found on an empty store, ten
register calls at times 0..9 from an attempt-free phone all succeed,
and the eleventh call at time 10 is rate-limited with retry-after
`0 + 72h - 10`, which lies in `[0, 72h]`. -/
theorem c5_registration_throttle_witness :
    registerPhoneNumber (fun _ => none) "q" "123456" none 0 =
      (Sum.inr { error := .not_found }, fun _ => none) ∧
    deregisterPhoneNumber (fun _ => none) "q" 0 =
      (Sum.inr { error := .not_found }, fun _ => none) ∧
    (runRegisterTimes
        (fun k => if k = "p" then
          some { id := "p", displayPhoneNumber := "1" } else none)
        "p" "123456" none [0, 1, 2, 3, 4, 5, 6, 7, 8, 9] "p").map
      PhoneNumberConfig.registerRequests =
        some [0, 1, 2, 3, 4, 5, 6, 7, 8, 9] ∧
    (registerPhoneNumber
        (runRegisterTimes
          (fun k => if k = "p" then
            some { id := "p", displayPhoneNumber := "1" } else none)
          "p" "123456" none [0, 1, 2, 3, 4, 5, 6, 7, 8, 9])
        "p" "123456" none 10).1 =
      Sum.inr
        { error := .rate_limited
          retryAfterMs := some (oldestOf [0, 1, 2, 3, 4, 5, 6, 7, 8, 9] +
            REQUEST_WINDOW_MS - 10)
          attemptsInWindow := some REQUEST_LIMIT } ∧
    (0 : Int) ≤ oldestOf [0, 1, 2, 3, 4, 5, 6, 7, 8, 9] +
      REQUEST_WINDOW_MS - 10 ∧
    oldestOf [0, 1, 2, 3, 4, 5, 6, 7, 8, 9] + REQUEST_WINDOW_MS - 10 ≤
      REQUEST_WINDOW_MS := by
  have h5 := c5_registration_throttle.2.2.2.2
    (fun k => if k = "p" then
      some { id := "p", displayPhoneNumber := "1" } else none)
    "p" "123456" none { id := "p", displayPhoneNumber := "1" }
    [0, 1, 2, 3, 4, 5, 6, 7, 8, 9] 10 rfl rfl rfl (by decide)
  exact ⟨c5_registration_throttle.1 (fun _ => none) "q" "123456" none 0 rfl,
    c5_registration_throttle.2.1 (fun _ => none) "q" 0 rfl,
    h5.1, h5.2.1, h5.2.2.1, h5.2.2.2⟩

/-! ## Claim C6 -/

/-- C6: `evaluateMarketingEligibility` always rejects an `opted_out`
contact, always allows an `opted_in` contact, and for a contact with
status `unknown` — or with no record at all — returns `allowed` equal
to the negation of the `requireOptIn` configuration flag; in
particular, with `requireOptIn = true` and no record the result is
`allowed = false` with `status = unknown`. -/
theorem c6_marketing_eligibility :
    (∀ (store : MarketingStore) (waId : String) (c : MarketingContact),
        store.contacts waId = some c → c.status = .opted_out →
        (evaluateMarketingEligibility store waId).allowed = false) ∧
    (∀ (store : MarketingStore) (waId : String) (c : MarketingContact),
        store.contacts waId = some c → c.status = .opted_in →
        (evaluateMarketingEligibility store waId).allowed = true) ∧
    (∀ (store : MarketingStore) (waId : String),
        store.contacts waId = none →
        (evaluateMarketingEligibility store waId).allowed =
          !store.config.requireOptIn ∧
        (evaluateMarketingEligibility store waId).status = .unknown) ∧
    (∀ (store : MarketingStore) (waId : String) (c : MarketingContact),
        store.contacts waId = some c → c.status = .unknown →
        (evaluateMarketingEligibility store waId).allowed =
          !store.config.requireOptIn) ∧
    (∀ (store : MarketingStore) (waId : String),
        store.config.requireOptIn = true → store.contacts waId = none →
        (evaluateMarketingEligibility store waId).allowed = false ∧
        (evaluateMarketingEligibility store waId).status = .unknown) := by
  refine ⟨?_, ?_, ?_, ?_, ?_⟩
  · intro store waId c hc hs
    unfold evaluateMarketingEligibility
    rw [hc]
    simp [hs]
  · intro store waId c hc hs
    unfold evaluateMarketingEligibility
    rw [hc]
    simp [hs]
  · intro store waId hc
    unfold evaluateMarketingEligibility
    rw [hc]
    cases h : store.config.requireOptIn <;> simp [h]
  · intro store waId c hc hs
    unfold evaluateMarketingEligibility
    rw [hc]
    simp [hs]
  · intro store waId hopt hc
    unfold evaluateMarketingEligibility
    rw [hc]
    simp [hopt]

/-- Witness for C6: an opted-out contact is rejected, an opted-in
contact is allowed, and under the default configuration
(`requireOptIn = true`) a contact with no record is rejected with
status `unknown`. -/
theorem c6_marketing_eligibility_witness :
    (evaluateMarketingEligibility
      { contacts := fun k => if k = "c1" then
          some { waId := "c1", status := .opted_out, updatedAt := 0 }
          else none
        sends := []
        frequencyBuckets := fun _ => []
        config := defaultMarketingConfig } "c1").allowed = false ∧
    (evaluateMarketingEligibility
      { contacts := fun k => if k = "c2" then
          some { waId := "c2", status := .opted_in, updatedAt := 0 }
          else none
        sends := []
        frequencyBuckets := fun _ => []
        config := defaultMarketingConfig } "c2").allowed = true ∧
    (evaluateMarketingEligibility emptyMarketingStore "c3").allowed = false ∧
    (evaluateMarketingEligibility emptyMarketingStore "c3").status =
      .unknown := by
  have h3 := c6_marketing_eligibility.2.2.2.2 emptyMarketingStore "c3"
    rfl rfl
  exact ⟨c6_marketing_eligibility.1 _ "c1"
      { waId := "c1", status := .opted_out, updatedAt := 0 } rfl rfl,
    c6_marketing_eligibility.2.1 _ "c2"
      { waId := "c2", status := .opted_in, updatedAt := 0 } rfl rfl,
    h3.1, h3.2⟩

/-! ## Claim C7 -/

/-- C7 counterexample: the evaluator has no upper bound on the
effective time.  Register a send scheduled for time 172,800,000 (two
days ahead) at wall-clock 0; evaluating at `now = 100` finds 0 records
with effective time inside `[now - window, now]` — strictly below the
cap of 1 — yet the code counts the future record and returns
`allowed = false`. -/
theorem c7_frequency_window_counterexample :
    (evaluateMarketingFrequency
        (registerMarketingSend emptyMarketingStore "p" "r" none none none
          (some 172800000) 0 "id1").2 "p" "r" 100).allowed = false ∧
    (((registerMarketingSend emptyMarketingStore "p" "r" none none none
          (some 172800000) 0 "id1").2.frequencyBuckets
        (getFrequencyKey "p" "r")).filter
      (fun s =>
        decide (100 - defaultMarketingConfig.frequencyWindowMs ≤
          effectiveAt s) && decide (effectiveAt s ≤ 100))).length <
      defaultMarketingConfig.maxSendsPerWindow := by
  constructor
  · decide
  · decide

theorem length_filter_implies {α : Type} (l : List α) (p q : α → Bool)
    (h : ∀ a ∈ l, p a = true → q a = true) :
    (l.filter p).length ≤ (l.filter q).length := by
  induction l with
  | nil => simp
  | cons a t ih =>
    have ih' := ih (fun x hx => h x (List.mem_cons_of_mem a hx))
    cases hp : p a
    · cases hq : q a <;>
        simp [List.filter_cons, hp, hq] <;> omega
    · have hq := h a (List.mem_cons_self a t) hp
      simp [List.filter_cons, hp, hq]
      omega

theorem evaluateMarketingFrequency_spec (store : MarketingStore)
    (phoneId recipient : String) (now : Int) :
    (evaluateMarketingFrequency store phoneId recipient now).sendsInWindow =
      marketingSendsInWindow store phoneId recipient now ∧
    ((evaluateMarketingFrequency store phoneId recipient now).allowed =
        true ↔
      marketingSendsInWindow store phoneId recipient now <
        store.config.maxSendsPerWindow) := by
  constructor
  · rfl
  · simp [evaluateMarketingFrequency, marketingSendsInWindow]

theorem marketingSendsInWindow_mono (store : MarketingStore)
    (phoneId recipient : String) {now now' : Int} (h : now ≤ now') :
    marketingSendsInWindow store phoneId recipient now' ≤
      marketingSendsInWindow store phoneId recipient now := by
  apply length_filter_implies
  intro a _ ha
  simp only [decide_eq_true_eq] at ha ⊢
  omega

theorem guardedMarketingStep_config (phoneId recipient : String)
    (store : MarketingStore) (st : GuardedMarketingStep) :
    (guardedMarketingStep phoneId recipient store st).config =
      store.config := by
  unfold guardedMarketingStep
  split <;> rfl

theorem guardedMarketingStep_bound (phoneId recipient : String)
    (store : MarketingStore) (st : GuardedMarketingStep)
    (hb : marketingSendsInWindow store phoneId recipient st.now ≤
      store.config.maxSendsPerWindow) :
    marketingSendsInWindow (guardedMarketingStep phoneId recipient store st)
      phoneId recipient st.now ≤ store.config.maxSendsPerWindow := by
  unfold guardedMarketingStep
  split
  case isFalse => exact hb
  case isTrue hallowed =>
    have hlt : marketingSendsInWindow store phoneId recipient st.now <
        store.config.maxSendsPerWindow :=
      ((evaluateMarketingFrequency_spec store phoneId recipient
        st.now).2).mp hallowed
    have hcfg : (registerMarketingSend store phoneId recipient none none
        none st.sendAt st.now st.rid).2.config = store.config := rfl
    have hbucket : (registerMarketingSend store phoneId recipient none none
        none st.sendAt st.now st.rid).2.frequencyBuckets
        (getFrequencyKey phoneId recipient) =
        (store.frequencyBuckets (getFrequencyKey phoneId recipient) ++
          [(registerMarketingSend store phoneId recipient none none none
            st.sendAt st.now st.rid).1]).filter
          (fun r => decide (st.sendAt.getD st.now -
            store.config.frequencyWindowMs ≤ effectiveAt r)) := by
      simp [registerMarketingSend]
    unfold marketingSendsInWindow at hlt ⊢
    rw [hcfg, hbucket]
    refine le_trans (List.Sublist.length_le
      (List.Sublist.filter _ (List.filter_sublist _))) ?_
    rw [List.filter_append, List.length_append]
    have hone : ((([(registerMarketingSend store phoneId recipient none
        none none st.sendAt st.now st.rid).1] :
          List MarketingSendRecord).filter (fun s =>
        decide (st.now - store.config.frequencyWindowMs ≤
          effectiveAt s))).length) ≤ 1 := by
      rw [List.filter_singleton]
      cases hdec : decide (st.now - store.config.frequencyWindowMs ≤
          effectiveAt (registerMarketingSend store phoneId recipient none
            none none st.sendAt st.now st.rid).1) <;> simp [hdec]
    omega

theorem runGuardedMarketing_bound (phoneId recipient : String)
    (steps : List GuardedMarketingStep) :
    ∀ (store : MarketingStore) (now₀ nowF : Int),
    marketingSendsInWindow store phoneId recipient now₀ ≤
      store.config.maxSendsPerWindow →
    List.Chain (fun a b => a ≤ b) now₀
      (steps.map GuardedMarketingStep.now ++ [nowF]) →
    marketingSendsInWindow (runGuardedMarketing store phoneId recipient
        steps) phoneId recipient nowF ≤
      store.config.maxSendsPerWindow := by
  induction steps with
  | nil =>
    intro store now₀ nowF hb hchain
    simp only [List.map_nil, List.nil_append, List.chain_cons] at hchain
    exact le_trans
      (marketingSendsInWindow_mono store phoneId recipient hchain.1) hb
  | cons st rest ih =>
    intro store now₀ nowF hb hchain
    simp only [List.map_cons, List.cons_append, List.chain_cons] at hchain
    have hb' : marketingSendsInWindow store phoneId recipient st.now ≤
        store.config.maxSendsPerWindow :=
      le_trans (marketingSendsInWindow_mono store phoneId recipient
        hchain.1) hb
    have hstep := guardedMarketingStep_bound phoneId recipient store st hb'
    have hcfg := guardedMarketingStep_config phoneId recipient store st
    have hrun : runGuardedMarketing store phoneId recipient (st :: rest) =
        runGuardedMarketing (guardedMarketingStep phoneId recipient store
          st) phoneId recipient rest := rfl
    rw [hrun]
    have := ih (guardedMarketingStep phoneId recipient store st) st.now
      nowF (by rw [hcfg]; exact hstep) hchain.2
    rw [hcfg] at this
    exact this

/-- C7 as amended: `evaluateMarketingFrequency` counts the bucket
records whose effective time (`scheduledFor` when present, else the
send time) is at least `now - window` — with NO upper bound at `now`,
so future-scheduled sends count too — and allows exactly when that
count is strictly below `maxSendsPerWindow`; and in every run that
evaluates (at non-decreasing instants) and registers only when allowed,
that in-window count for the (number, recipient) pair never exceeds
`maxSendsPerWindow`. -/
theorem c7_marketing_frequency :
    (∀ (store : MarketingStore) (phoneId recipient : String) (now : Int),
        (evaluateMarketingFrequency store phoneId recipient
            now).sendsInWindow =
          marketingSendsInWindow store phoneId recipient now ∧
        ((evaluateMarketingFrequency store phoneId recipient now).allowed =
            true ↔
          marketingSendsInWindow store phoneId recipient now <
            store.config.maxSendsPerWindow)) ∧
    (∀ (phoneId recipient : String) (steps : List GuardedMarketingStep)
        (store : MarketingStore) (now₀ nowF : Int),
        marketingSendsInWindow store phoneId recipient now₀ ≤
          store.config.maxSendsPerWindow →
        List.Chain (fun a b => a ≤ b) now₀
          (steps.map GuardedMarketingStep.now ++ [nowF]) →
        marketingSendsInWindow (runGuardedMarketing store phoneId recipient
            steps) phoneId recipient nowF ≤
          store.config.maxSendsPerWindow) := by
  exact ⟨evaluateMarketingFrequency_spec,
    fun phoneId recipient steps => runGuardedMarketing_bound phoneId
      recipient steps⟩

/-- Witness for C7 (amended) at a concrete run: two guarded steps (the
second scheduled ahead) from the empty store keep the in-window count
for `("p", "r")` within the default cap of one send per 24h window. -/
theorem c7_marketing_frequency_witness :
    (evaluateMarketingFrequency emptyMarketingStore "p" "r"
        50).sendsInWindow =
      marketingSendsInWindow emptyMarketingStore "p" "r" 50 ∧
    marketingSendsInWindow
      (runGuardedMarketing emptyMarketingStore "p" "r"
        [{ sendAt := none, now := 0, rid := "a" },
         { sendAt := some 5, now := 3, rid := "b" }]) "p" "r" 7 ≤
      emptyMarketingStore.config.maxSendsPerWindow := by
  constructor
  · exact (c7_marketing_frequency.1 emptyMarketingStore "p" "r" 50).1
  · exact c7_marketing_frequency.2 "p" "r"
      [{ sendAt := none, now := 0, rid := "a" },
       { sendAt := some 5, now := 3, rid := "b" }]
      emptyMarketingStore 0 7 (by decide) (by simp [List.chain_cons])

/-! ## Claim C8 -/

theorem trimAppend_eq_drop (log : List SandboxEvent) (e : SandboxEvent) :
    trimAppend log e =
      (log ++ [e]).drop ((log ++ [e]).length - maxEvents) := by
  simp only [trimAppend]
  split
  · rfl
  · rename_i h
    rw [Nat.sub_eq_zero_of_le (by omega)]
    simp

theorem trimAppend_length_le (log : List SandboxEvent) (e : SandboxEvent) :
    (trimAppend log e).length ≤ maxEvents := by
  simp only [trimAppend]
  split
  · rename_i h
    rw [List.length_drop]
    omega
  · rename_i h
    omega

set_option maxRecDepth 4000 in
theorem publishAll_drop (inputs : List (SandboxEventInput × String × Int)) :
    ∀ log : List SandboxEvent, log.length ≤ maxEvents →
    publishAll log inputs =
      (log ++ enrichAll inputs).drop
        (log.length + inputs.length - maxEvents) := by
  induction inputs with
  | nil =>
    intro log hlen
    show log = (log ++ enrichAll []).drop (log.length + 0 - maxEvents)
    rw [Nat.add_zero,
      Nat.sub_eq_zero_of_le hlen]
    simp [enrichAll]
  | cons x rest ih =>
    intro log hlen
    have hstep : publishAll log (x :: rest) =
        publishAll (trimAppend log (enrichEvent x.1 x.2.1 x.2.2)) rest :=
      rfl
    rw [hstep, ih _ (trimAppend_length_le log _)]
    rw [trimAppend_eq_drop]
    have hd₁ : (log ++ [enrichEvent x.1 x.2.1 x.2.2]).length - maxEvents ≤
        (log ++ [enrichEvent x.1 x.2.1 x.2.2]).length := Nat.sub_le _ _
    rw [← List.drop_append_of_le_length hd₁, List.drop_drop]
    rw [List.append_assoc]
    congr 1
    rw [List.length_drop]
    simp only [List.length_append, List.length_singleton, List.length_cons,
      List.length_nil, List.length_drop, enrichAll, List.length_map,
      maxEvents] at *
    omega

/-- C8: `addEvent` assigns the generated id and the current timestamp
to the record and appends it (trimming the log to the most recent 200);
the resulting log does not depend on the subscriber set — in
particular, a subscriber whose callback throws cannot change it — and
every subscriber, regardless of the outcomes of the others, is invoked
exactly once on the enriched event; and publishing 250 events
sequentially from an empty log leaves exactly the most recent 200, in
their original relative order. -/
theorem c8_event_bus :
    (∀ (log : List SandboxEvent) (subscribers : List Subscriber)
        (input : SandboxEventInput) (eid : String) (now : Int),
        (addEvent log subscribers input eid now).1.id = eid ∧
        (addEvent log subscribers input eid now).1.timestamp = now ∧
        (addEvent log subscribers input eid now).2.1 =
          trimAppend log (enrichEvent input eid now) ∧
        (addEvent log subscribers input eid now).2.2 =
          subscribers.map (fun s => s (enrichEvent input eid now))) ∧
    (∀ (log : List SandboxEvent) (subscribers others : List Subscriber)
        (input : SandboxEventInput) (eid : String) (now : Int),
        (addEvent log subscribers input eid now).2.1 =
          (addEvent log others input eid now).2.1) ∧
    (∀ inputs : List (SandboxEventInput × String × Int),
        inputs.length = 250 →
        publishAll [] inputs = (enrichAll inputs).drop 50 ∧
        (publishAll [] inputs).length = 200) := by
  refine ⟨?_, ?_, ?_⟩
  · intro log subscribers input eid now
    exact ⟨rfl, rfl, rfl, rfl⟩
  · intro log subscribers others input eid now
    rfl
  · intro inputs hlen
    have h := publishAll_drop inputs [] (by simp [maxEvents])
    rw [List.length_nil, List.nil_append, hlen] at h
    have h50 : 0 + 250 - maxEvents = 50 := by
      simp [maxEvents]
    rw [h50] at h
    constructor
    · exact h
    · rw [h, List.length_drop, enrichAll, List.length_map, hlen]

/-- Witness for C8: publishing 250 copies of a concrete input leaves
the most recent 200 enriched events. -/
theorem c8_event_bus_witness :
    publishAll []
        (List.replicate 250
          (({ direction := .system, type := .configUpdate, source := "s",
              payload := "x" }, "e", (0 : Int)))) =
      (enrichAll (List.replicate 250
        (({ direction := .system, type := .configUpdate, source := "s",
            payload := "x" }, "e", (0 : Int))))).drop 50 ∧
    (publishAll []
        (List.replicate 250
          (({ direction := .system, type := .configUpdate, source := "s",
              payload := "x" }, "e", (0 : Int))))).length = 200 := by
  exact c8_event_bus.2.2
    (List.replicate 250
      (({ direction := .system, type := .configUpdate, source := "s",
          payload := "x" }, "e", (0 : Int))))
    (by rw [List.length_replicate])

/-! ## Claim C9 -/

/-- C9 counterexample: creating a template from flat fields
`bodyText = "Hi"`, `headerText = ""` succeeds, but the supplied flat
header (the empty string) is dropped when components are synthesized —
deriving the header text back from the stored components yields `none`,
not the supplied `some ""`, so the two representations do not agree on
every flat input. -/
theorem c9_template_roundtrip_counterexample :
    (createTemplate
        { name := "t", languageCode := "en", bodyText := some "Hi",
          headerText := some "" } "tid" 0).toOption.map
      (fun tpl => (deriveTextFromComponents tpl.components).headerText) =
      some none ∧
    ({ name := "t", languageCode := "en", bodyText := some "Hi",
       headerText := some "" } : CreateTemplateInput).headerText =
      some "" := by
  constructor
  · rfl
  · rfl

theorem strTruthy_none : strTruthy none = false := rfl

theorem derive_build (b h f : Option String) :
    deriveTextFromComponents (buildComponentsFromText b h f) =
      { headerText := if strTruthy h then h else none
        bodyText := if strTruthy b then b else none
        footerText := if strTruthy f then f else none } := by
  unfold buildComponentsFromText deriveTextFromComponents
  cases hh : strTruthy h <;> cases hb : strTruthy b <;>
    cases hf : strTruthy f <;>
      simp [deriveStep, hh, hb, hf, strTruthy_none]

/-- C9 as amended: a template created from a structured components list
(no flat body text supplied) stores exactly those components, and the
body text derived back from them equals the stored `bodyText` (the
first BODY component with non-empty text); conversely a template
created from flat text fields stores components from which the derived
header/body/footer texts equal the supplied flat fields, provided each
supplied field is non-empty (an empty-string field is treated as
absent), and the stored flat fields equal the supplied ones, so both
representations are populated together. -/
theorem c9_template_roundtrip :
    (∀ (cs : List TemplateComponent) (input : CreateTemplateInput)
        (tid : String) (now : Int) (tpl : MessageTemplate),
        input.components = some cs → input.bodyText = none →
        createTemplate input tid now = Except.ok tpl →
        tpl.components = cs ∧
        (deriveTextFromComponents tpl.components).bodyText =
          tpl.bodyText) ∧
    (∀ (input : CreateTemplateInput) (tid : String) (now : Int)
        (tpl : MessageTemplate),
        input.components = none →
        (input.headerText = none ∨ strTruthy input.headerText = true) →
        (input.footerText = none ∨ strTruthy input.footerText = true) →
        createTemplate input tid now = Except.ok tpl →
        deriveTextFromComponents tpl.components =
          { headerText := input.headerText
            bodyText := input.bodyText
            footerText := input.footerText } ∧
        tpl.bodyText = input.bodyText ∧
        tpl.headerText = input.headerText ∧
        tpl.footerText = input.footerText) := by
  constructor
  · intro cs input tid now tpl hcomp hbody hok
    unfold createTemplate at hok
    rw [hcomp, hbody] at hok
    simp only [Option.getD_some, Option.none_orElse] at hok
    split at hok
    · exact absurd hok (by simp)
    · rw [Except.ok.injEq] at hok
      subst hok
      exact ⟨rfl, rfl⟩
  · intro input tid now tpl hcomp hh hf hok
    unfold createTemplate at hok
    rw [hcomp] at hok
    simp only [Option.getD_none] at hok
    split at hok
    · exact absurd hok (by simp)
    · rename_i hbody
      rw [not_not] at hbody
      rw [derive_build] at hbody hok
      have hbt : strTruthy input.bodyText = true := by
        cases hbc : input.bodyText with
        | none =>
          rw [hbc] at hbody
          simp [strTruthy_none] at hbody
        | some s =>
          rw [hbc] at hbody
          simp only [Option.some_orElse] at hbody
          exact hbody
      have hhead : (if strTruthy input.headerText then input.headerText
          else none) = input.headerText := by
        rcases hh with h | h
        · rw [h]
          simp [strTruthy_none]
        · rw [if_pos h]
      have hfoot : (if strTruthy input.footerText then input.footerText
          else none) = input.footerText := by
        rcases hf with h | h
        · rw [h]
          simp [strTruthy_none]
        · rw [if_pos h]
      have hbodyif : (if strTruthy input.bodyText then input.bodyText
          else none) = input.bodyText := by rw [if_pos hbt]
      rw [Except.ok.injEq] at hok
      subst hok
      refine ⟨?_, ?_, ?_, ?_⟩
      · show deriveTextFromComponents (buildComponentsFromText
          input.bodyText input.headerText input.footerText) = _
        rw [derive_build, hhead, hfoot, hbodyif]
      · show (input.bodyText <|> (if strTruthy input.bodyText then
          input.bodyText else none)) = input.bodyText
        rw [hbodyif]
        cases input.bodyText <;> simp
      · show (input.headerText <|> (if strTruthy input.headerText then
          input.headerText else none)) = input.headerText
        rw [hhead]
        cases input.headerText <;> simp
      · show (input.footerText <|> (if strTruthy input.footerText then
          input.footerText else none)) = input.footerText
        rw [hfoot]
        cases input.footerText <;> simp

/-- Witness for C9 (amended): a template created from a single BODY
component derives its body text back unchanged, and a template created
from non-empty flat fields `bodyText = "B"`, `headerText = "H"` yields
components that derive back exactly the supplied flat fields. -/
theorem c9_template_roundtrip_witness :
    (deriveTextFromComponents
      [({ type := .BODY, text := some "Hello" } : TemplateComponent)]
      ).bodyText = some "Hello" ∧
    deriveTextFromComponents
        (buildComponentsFromText (some "B") (some "H") none) =
      { headerText := some "H", bodyText := some "B",
        footerText := none } := by
  constructor
  · exact (c9_template_roundtrip.1
      [{ type := .BODY, text := some "Hello" }]
      { name := "t", languageCode := "en",
        components := some [{ type := .BODY, text := some "Hello" }] }
      "tid" 0
      { id := "tid", name := "t", languageCode := "en",
        category := .UNKNOWN, bodyText := some "Hello",
        components := [{ type := .BODY, text := some "Hello" }],
        status := .PENDING,
        statusHistory := [{ status := .PENDING, updatedAt := 0 }],
        createdAt := 0, updatedAt := 0 }
      rfl rfl rfl).2
  · exact (c9_template_roundtrip.2
      { name := "t2", languageCode := "en", bodyText := some "B",
        headerText := some "H" }
      "tid2" 5
      { id := "tid2", name := "t2", languageCode := "en",
        category := .UNKNOWN, bodyText := some "B",
        headerText := some "H",
        components :=
          [{ type := .HEADER, format := some "TEXT", text := some "H" },
           { type := .BODY, text := some "B" }],
        status := .PENDING,
        statusHistory := [{ status := .PENDING, updatedAt := 5 }],
        createdAt := 5, updatedAt := 5 }
      rfl (Or.inr rfl) (Or.inl rfl) rfl).1

/-! ## Claim C10 -/

theorem verifyPhoneNumberCode_noPhone {store : PhoneStore}
    {id code : String} (h : store id = none) :
    verifyPhoneNumberCode store id code = (false, store) := by
  unfold verifyPhoneNumberCode
  rw [h]

theorem verifyPhoneNumberCode_noPending {store : PhoneStore}
    {id code : String} {phone : PhoneNumberConfig}
    (h : store id = some phone)
    (hp : phone.pendingVerificationCode = none) :
    verifyPhoneNumberCode store id code = (false, store) := by
  unfold verifyPhoneNumberCode
  rw [h]
  simp only
  rw [hp]

theorem verifyPhoneNumberCode_mismatch {store : PhoneStore}
    {id code : String} {phone : PhoneNumberConfig}
    {pending : PendingPhoneVerificationCode}
    (h : store id = some phone)
    (hp : phone.pendingVerificationCode = some pending)
    (hc : ¬ pending.code = code) :
    verifyPhoneNumberCode store id code = (false, store) := by
  unfold verifyPhoneNumberCode
  rw [h]
  simp only
  rw [hp]
  simp only
  rw [if_neg hc]

theorem verifyPhoneNumberCode_success {store : PhoneStore}
    {id code : String} {phone : PhoneNumberConfig}
    {pending : PendingPhoneVerificationCode}
    (h : store id = some phone)
    (hp : phone.pendingVerificationCode = some pending)
    (hc : pending.code = code) :
    verifyPhoneNumberCode store id code =
      (true, setPhone store id
        { phone with
            verificationStatus := .VERIFIED
            pendingVerificationCode := none }) := by
  unfold verifyPhoneNumberCode
  rw [h]
  simp only
  rw [hp]
  simp only
  rw [if_pos hc]

/-- C10: `verifyPhoneNumberCode` returns `true` exactly when the phone
exists, has a pending verification code, and the supplied code matches
it; on success it marks the phone `VERIFIED` and deletes the pending
code, so immediately repeating the same call returns `false` (each code
is single-use); and every failing call (missing phone, no pending code,
or mismatch) leaves the store unchanged. -/
theorem c10_verify_phone_code :
    (∀ (store : PhoneStore) (id code : String),
        (verifyPhoneNumberCode store id code).1 = true ↔
          ∃ (phone : PhoneNumberConfig)
            (pending : PendingPhoneVerificationCode),
            store id = some phone ∧
            phone.pendingVerificationCode = some pending ∧
            pending.code = code) ∧
    (∀ (store : PhoneStore) (id code : String)
        (phone : PhoneNumberConfig)
        (pending : PendingPhoneVerificationCode),
        store id = some phone →
        phone.pendingVerificationCode = some pending →
        pending.code = code →
        (verifyPhoneNumberCode store id code).2 id =
          some { phone with
            verificationStatus := .VERIFIED
            pendingVerificationCode := none } ∧
        (verifyPhoneNumberCode
          (verifyPhoneNumberCode store id code).2 id code).1 = false) ∧
    (∀ (store : PhoneStore) (id code : String),
        (verifyPhoneNumberCode store id code).1 = false →
        (verifyPhoneNumberCode store id code).2 = store) := by
  refine ⟨?_, ?_, ?_⟩
  · intro store id code
    constructor
    · intro h
      cases hphone : store id with
      | none =>
        rw [verifyPhoneNumberCode_noPhone hphone] at h
        exact absurd h (by simp)
      | some phone =>
        cases hpend : phone.pendingVerificationCode with
        | none =>
          rw [verifyPhoneNumberCode_noPending hphone hpend] at h
          exact absurd h (by simp)
        | some pending =>
          by_cases hcode : pending.code = code
          · exact ⟨phone, pending, rfl, hpend, hcode⟩
          · rw [verifyPhoneNumberCode_mismatch hphone hpend hcode] at h
            exact absurd h (by simp)
    · rintro ⟨phone, pending, hphone, hpend, hcode⟩
      rw [verifyPhoneNumberCode_success hphone hpend hcode]
  · intro store id code phone pending hphone hpend hcode
    rw [verifyPhoneNumberCode_success hphone hpend hcode]
    have hlookup : setPhone store id
        { phone with
            verificationStatus := .VERIFIED
            pendingVerificationCode := none } id =
        some { phone with
            verificationStatus := .VERIFIED
            pendingVerificationCode := none } := by
      simp [setPhone]
    refine ⟨hlookup, ?_⟩
    rw [verifyPhoneNumberCode_noPending hlookup rfl]
  · intro store id code hfail
    cases hphone : store id with
    | none => rw [verifyPhoneNumberCode_noPhone hphone]
    | some phone =>
      cases hpend : phone.pendingVerificationCode with
      | none => rw [verifyPhoneNumberCode_noPending hphone hpend]
      | some pending =>
        by_cases hcode : pending.code = code
        · rw [verifyPhoneNumberCode_success hphone hpend hcode] at hfail
          exact absurd hfail (by simp)
        · rw [verifyPhoneNumberCode_mismatch hphone hpend hcode]

/-- Witness for C10 at a concrete store: verifying the matching code
succeeds and consumes it (the immediate retry fails), a wrong code
fails and leaves the store unchanged, and the success iff holds. -/
theorem c10_verify_phone_code_witness :
    (verifyPhoneNumberCode
      (fun k => if k = "p" then
        some { id := "p", displayPhoneNumber := "1",
               verificationStatus := .PENDING,
               pendingVerificationCode := some
                 { code := "123456", method := .SMS, language := "en",
                   requestedAt := 0 } }
        else none) "p" "123456").2 "p" =
      some { id := "p", displayPhoneNumber := "1",
             verificationStatus := .VERIFIED,
             pendingVerificationCode := none } ∧
    (verifyPhoneNumberCode
      (verifyPhoneNumberCode
        (fun k => if k = "p" then
          some { id := "p", displayPhoneNumber := "1",
                 verificationStatus := .PENDING,
                 pendingVerificationCode := some
                   { code := "123456", method := .SMS, language := "en",
                     requestedAt := 0 } }
          else none) "p" "123456").2 "p" "123456").1 = false ∧
    (verifyPhoneNumberCode
      (fun k => if k = "p" then
        some { id := "p", displayPhoneNumber := "1",
               verificationStatus := .PENDING,
               pendingVerificationCode := some
                 { code := "123456", method := .SMS, language := "en",
                   requestedAt := 0 } }
        else none) "p" "999999").2 =
      (fun k => if k = "p" then
        some { id := "p", displayPhoneNumber := "1",
               verificationStatus := .PENDING,
               pendingVerificationCode := some
                 { code := "123456", method := .SMS, language := "en",
                   requestedAt := 0 } }
        else none) := by
  have h2 := c10_verify_phone_code.2.1
    (fun k => if k = "p" then
      some { id := "p", displayPhoneNumber := "1",
             verificationStatus := .PENDING,
             pendingVerificationCode := some
               { code := "123456", method := .SMS, language := "en",
                 requestedAt := 0 } }
      else none) "p" "123456"
    { id := "p", displayPhoneNumber := "1",
      verificationStatus := .PENDING,
      pendingVerificationCode := some
        { code := "123456", method := .SMS, language := "en",
          requestedAt := 0 } }
    { code := "123456", method := .SMS, language := "en",
      requestedAt := 0 }
    rfl rfl rfl
  refine ⟨h2.1, h2.2, ?_⟩
  exact c10_verify_phone_code.2.2
    (fun k => if k = "p" then
      some { id := "p", displayPhoneNumber := "1",
             verificationStatus := .PENDING,
             pendingVerificationCode := some
               { code := "123456", method := .SMS, language := "en",
                 requestedAt := 0 } }
      else none) "p" "999999" rfl

end WabaSandbox
